import Mathlib

/-!
Verification development for the `recourse` resilience runtime.

The Go sources are shallowly embedded: durations become integral
nanoseconds (`Int`, matching `time.Duration`), `float64` fields that are
only compared and assigned become `ℚ`, Go strings that get parsed become
`List Char`, and the concurrent retry-group coordinator becomes a pure
fold over the sequence of events (attempt completions, context
cancellation, hedge-spawner ticks) it reacts to.  Wall-clock timestamp
fields (`StartTime`/`EndTime`, `AttemptStart`) that no verified property
reads are carried only where the control flow consults them.
-/

namespace Recourse

/-- One millisecond in nanoseconds (Go durations, `time.Duration`, are
embedded as plain integral nanoseconds). -/
def millisecond : Int := 1000000

/-- One second in nanoseconds. -/
def second : Int := 1000000000

/-- Go strings that are parsed or concatenated are modelled as lists of
characters. -/
abbrev GoString := List Char

/-- `policy.PolicyKey` (`policy/key.go`): a low-cardinality call-site key. -/
structure PolicyKey where
  Namespace : GoString
  Name : GoString
deriving DecidableEq

/-- `policy.BudgetRef`: reference to a named budget with a per-attempt cost. -/
structure BudgetRef where
  Name : GoString
  Cost : Int
deriving DecidableEq

/-- `policy.RetryPolicy`: the retry envelope of an `EffectivePolicy`.
`Jitter` is the underlying string of the Go `JitterKind`. -/
structure RetryPolicy where
  MaxAttempts : Int
  InitialBackoff : Int
  MaxBackoff : Int
  BackoffMultiplier : ℚ
  Jitter : String
  TimeoutPerAttempt : Int
  OverallTimeout : Int
  ClassifierName : GoString
  Budget : BudgetRef
deriving DecidableEq

/-- `policy.HedgePolicy`. -/
structure HedgePolicy where
  Enabled : Bool
  MaxHedges : Int
  HedgeDelay : Int
  TriggerName : GoString
  CancelOnFirstTerminal : Bool
  Budget : BudgetRef
deriving DecidableEq

/-- `policy.CircuitPolicy`. -/
structure CircuitPolicy where
  Enabled : Bool
  Threshold : Int
  Cooldown : Int
deriving DecidableEq

/-- `policy.NormalizationInfo`: which fields normalization changed. -/
structure NormalizationInfo where
  Changed : Bool
  ChangedFields : List String
deriving DecidableEq

/-- `policy.Metadata`: resolution source plus normalization notes.  The
source enum is its underlying string. -/
structure Metadata where
  Source : String
  Normalization : NormalizationInfo
deriving DecidableEq

/-- `policy.EffectivePolicy`: the per-call policy snapshot. -/
structure EffectivePolicy where
  Key : PolicyKey
  ID : GoString
  Retry : RetryPolicy
  Hedge : HedgePolicy
  Circuit : CircuitPolicy
  Meta : Metadata
deriving DecidableEq

/-- The Go zero value `policy.EffectivePolicy{}`. -/
def zeroEffectivePolicy : EffectivePolicy :=
  { Key := ⟨[], []⟩
    ID := []
    Retry :=
      { MaxAttempts := 0, InitialBackoff := 0, MaxBackoff := 0
        BackoffMultiplier := 0, Jitter := "", TimeoutPerAttempt := 0
        OverallTimeout := 0, ClassifierName := [], Budget := ⟨[], 0⟩ }
    Hedge :=
      { Enabled := false, MaxHedges := 0, HedgeDelay := 0, TriggerName := []
        CancelOnFirstTerminal := false, Budget := ⟨[], 0⟩ }
    Circuit := { Enabled := false, Threshold := 0, Cooldown := 0 }
    Meta := { Source := "", Normalization := ⟨false, []⟩ } }

/-- `policy.DefaultPolicyFor`: the built-in safe default policy for a key. -/
def DefaultPolicyFor (key : PolicyKey) : EffectivePolicy :=
  { Key := key
    ID := []
    Retry :=
      { MaxAttempts := 3
        InitialBackoff := 10 * millisecond
        MaxBackoff := 250 * millisecond
        BackoffMultiplier := 2
        Jitter := "none"
        TimeoutPerAttempt := 0
        OverallTimeout := 0
        ClassifierName := []
        Budget := ⟨[], 1⟩ }
    Hedge :=
      { Enabled := false, MaxHedges := 0, HedgeDelay := 0, TriggerName := []
        CancelOnFirstTerminal := false, Budget := ⟨[], 1⟩ }
    Circuit := { Enabled := false, Threshold := 0, Cooldown := 0 }
    Meta := { Source := "default", Normalization := ⟨false, []⟩ } }

/-- `policy.NormalizeError`: typed error for an invalid enum value. -/
structure NormalizeError where
  Field : String
  Value : String
deriving DecidableEq

/-- Equality of normalization results is decidable (used to evaluate the
model at concrete policies). -/
instance instDecEqExcept {ε α : Type} [DecidableEq ε] [DecidableEq α] :
    DecidableEq (Except ε α) := fun x y =>
  match x, y with
  | .ok a, .ok b =>
    if h : a = b then .isTrue (by rw [h])
    else .isFalse (fun c => h (by cases c; rfl))
  | .error a, .error b =>
    if h : a = b then .isTrue (by rw [h])
    else .isFalse (fun c => h (by cases c; rfl))
  | .ok _, .error _ => .isFalse (fun c => by cases c)
  | .error _, .ok _ => .isFalse (fun c => by cases c)

/-- The `markChanged` closure inside `EffectivePolicy.Normalize`: set the
`Changed` flag and append the field path unless already recorded. -/
def markChanged (n : NormalizationInfo) (field : String) : NormalizationInfo :=
  { Changed := true
    ChangedFields :=
      if field ∈ n.ChangedFields then n.ChangedFields
      else n.ChangedFields ++ [field] }

/-- Apply `markChanged` to a policy's normalization metadata. -/
def withMark (p : EffectivePolicy) (field : String) : EffectivePolicy :=
  { p with Meta := { p.Meta with Normalization := markChanged p.Meta.Normalization field } }

/-- Normalize guardrail constants from `policy/normalize.go`. -/
def maxRetryAttempts : Int := 10

/-- Guardrail: maximum hedges. -/
def maxHedgesCap : Int := 3

/-- Guardrail: backoff floor (1 ms). -/
def minBackoffFloor : Int := 1 * millisecond

/-- Guardrail: hedge-delay floor (10 ms). -/
def minHedgeDelayFloor : Int := 10 * millisecond

/-- Guardrail: backoff ceiling (30 s). -/
def maxBackoffCeiling : Int := 30 * second

/-- Guardrail: timeout floor (1 ms). -/
def minTimeoutFloor : Int := 1 * millisecond

/-- Guardrail: backoff multiplier ceiling. -/
def maxBackoffMultiplier : ℚ := 10

/-- Guardrail: circuit threshold floor. -/
def minCircuitThreshold : Int := 1

/-- Guardrail: circuit cooldown floor (100 ms). -/
def minCircuitCooldown : Int := 100 * millisecond

/-- `Normalize`, `Retry.MaxAttempts` block: default 3 when zero, clamp to
`1..maxRetryAttempts`. -/
def normMaxAttempts (p : EffectivePolicy) : EffectivePolicy :=
  let p :=
    if p.Retry.MaxAttempts = 0 then
      withMark { p with Retry := { p.Retry with MaxAttempts := 3 } } "retry.max_attempts"
    else p
  if p.Retry.MaxAttempts < 1 then
    withMark { p with Retry := { p.Retry with MaxAttempts := 1 } } "retry.max_attempts"
  else if p.Retry.MaxAttempts > maxRetryAttempts then
    withMark { p with Retry := { p.Retry with MaxAttempts := maxRetryAttempts } } "retry.max_attempts"
  else p

/-- `Normalize`, `Retry.InitialBackoff` block: default 10 ms when
non-positive, then floor at 1 ms. -/
def normInitialBackoff (p : EffectivePolicy) : EffectivePolicy :=
  let p :=
    if p.Retry.InitialBackoff ≤ 0 then
      withMark { p with Retry := { p.Retry with InitialBackoff := 10 * millisecond } } "retry.initial_backoff"
    else p
  if p.Retry.InitialBackoff < minBackoffFloor then
    withMark { p with Retry := { p.Retry with InitialBackoff := minBackoffFloor } } "retry.initial_backoff"
  else p

/-- `Normalize`, `Retry.MaxBackoff` block: default 250 ms when
non-positive, cap at the 30 s ceiling, then raise to `InitialBackoff`. -/
def normMaxBackoff (p : EffectivePolicy) : EffectivePolicy :=
  let p :=
    if p.Retry.MaxBackoff ≤ 0 then
      withMark { p with Retry := { p.Retry with MaxBackoff := 250 * millisecond } } "retry.max_backoff"
    else p
  let p :=
    if p.Retry.MaxBackoff > maxBackoffCeiling then
      withMark { p with Retry := { p.Retry with MaxBackoff := maxBackoffCeiling } } "retry.max_backoff"
    else p
  if p.Retry.MaxBackoff < p.Retry.InitialBackoff then
    withMark { p with Retry := { p.Retry with MaxBackoff := p.Retry.InitialBackoff } } "retry.max_backoff"
  else p

/-- `Normalize`, `Retry.BackoffMultiplier` block: default 2 when zero,
clamp to `1..maxBackoffMultiplier`. -/
def normBackoffMultiplier (p : EffectivePolicy) : EffectivePolicy :=
  let p :=
    if p.Retry.BackoffMultiplier = 0 then
      withMark { p with Retry := { p.Retry with BackoffMultiplier := 2 } } "retry.backoff_multiplier"
    else p
  if p.Retry.BackoffMultiplier < 1 then
    withMark { p with Retry := { p.Retry with BackoffMultiplier := 1 } } "retry.backoff_multiplier"
  else if p.Retry.BackoffMultiplier > maxBackoffMultiplier then
    withMark { p with Retry := { p.Retry with BackoffMultiplier := maxBackoffMultiplier } } "retry.backoff_multiplier"
  else p

/-- `Normalize`, `Retry.Jitter` switch: empty defaults to `none`; the
three known kinds pass; anything else is a typed error. -/
def normJitter (p : EffectivePolicy) : Except NormalizeError EffectivePolicy :=
  if p.Retry.Jitter = "" then
    .ok (withMark { p with Retry := { p.Retry with Jitter := "none" } } "retry.jitter")
  else if p.Retry.Jitter = "none" ∨ p.Retry.Jitter = "full" ∨ p.Retry.Jitter = "equal" then
    .ok p
  else
    .error ⟨"retry.jitter", p.Retry.Jitter⟩

/-- `Normalize`, `Retry.TimeoutPerAttempt` block: negatives become 0;
positive values are floored at 1 ms. -/
def normTimeoutPerAttempt (p : EffectivePolicy) : EffectivePolicy :=
  let p :=
    if p.Retry.TimeoutPerAttempt < 0 then
      withMark { p with Retry := { p.Retry with TimeoutPerAttempt := 0 } } "retry.timeout_per_attempt"
    else p
  if p.Retry.TimeoutPerAttempt > 0 ∧ p.Retry.TimeoutPerAttempt < minTimeoutFloor then
    withMark { p with Retry := { p.Retry with TimeoutPerAttempt := minTimeoutFloor } } "retry.timeout_per_attempt"
  else p

/-- `Normalize`, `Retry.OverallTimeout` block. -/
def normOverallTimeout (p : EffectivePolicy) : EffectivePolicy :=
  let p :=
    if p.Retry.OverallTimeout < 0 then
      withMark { p with Retry := { p.Retry with OverallTimeout := 0 } } "retry.overall_timeout"
    else p
  if p.Retry.OverallTimeout > 0 ∧ p.Retry.OverallTimeout < minTimeoutFloor then
    withMark { p with Retry := { p.Retry with OverallTimeout := minTimeoutFloor } } "retry.overall_timeout"
  else p

/-- `Normalize`, `Retry.Budget.Cost` block: zero or lower becomes 1. -/
def normRetryBudgetCost (p : EffectivePolicy) : EffectivePolicy :=
  let p :=
    if p.Retry.Budget.Cost = 0 then
      withMark { p with Retry := { p.Retry with Budget := { p.Retry.Budget with Cost := 1 } } } "retry.budget.cost"
    else p
  if p.Retry.Budget.Cost < 1 then
    withMark { p with Retry := { p.Retry with Budget := { p.Retry.Budget with Cost := 1 } } } "retry.budget.cost"
  else p

/-- `Normalize`, `Hedge.Budget.Cost` block. -/
def normHedgeBudgetCost (p : EffectivePolicy) : EffectivePolicy :=
  let p :=
    if p.Hedge.Budget.Cost = 0 then
      withMark { p with Hedge := { p.Hedge with Budget := { p.Hedge.Budget with Cost := 1 } } } "hedge.budget.cost"
    else p
  if p.Hedge.Budget.Cost < 1 then
    withMark { p with Hedge := { p.Hedge with Budget := { p.Hedge.Budget with Cost := 1 } } } "hedge.budget.cost"
  else p

/-- `Normalize`, `Hedge.MaxHedges` block (only reached when hedging is
enabled): default 2 when zero, clamp to `1..maxHedgesCap`. -/
def normMaxHedges (p : EffectivePolicy) : EffectivePolicy :=
  let p :=
    if p.Hedge.MaxHedges = 0 then
      withMark { p with Hedge := { p.Hedge with MaxHedges := 2 } } "hedge.max_hedges"
    else p
  if p.Hedge.MaxHedges < 1 then
    withMark { p with Hedge := { p.Hedge with MaxHedges := 1 } } "hedge.max_hedges"
  else if p.Hedge.MaxHedges > maxHedgesCap then
    withMark { p with Hedge := { p.Hedge with MaxHedges := maxHedgesCap } } "hedge.max_hedges"
  else p

/-- `Normalize`, `Hedge.HedgeDelay` block: default 200 ms when
non-positive, then floor at 10 ms. -/
def normHedgeDelay (p : EffectivePolicy) : EffectivePolicy :=
  let p :=
    if p.Hedge.HedgeDelay ≤ 0 then
      withMark { p with Hedge := { p.Hedge with HedgeDelay := 200 * millisecond } } "hedge.hedge_delay"
    else p
  if p.Hedge.HedgeDelay < minHedgeDelayFloor then
    withMark { p with Hedge := { p.Hedge with HedgeDelay := minHedgeDelayFloor } } "hedge.hedge_delay"
  else p

/-- `Normalize`, `Circuit.Threshold` block (only reached when both the
hedge and circuit sections are enabled): default 5 when non-positive,
then floor at `minCircuitThreshold`. -/
def normCircuitThreshold (p : EffectivePolicy) : EffectivePolicy :=
  let p :=
    if p.Circuit.Threshold ≤ 0 then
      withMark { p with Circuit := { p.Circuit with Threshold := 5 } } "circuit.threshold"
    else p
  if p.Circuit.Threshold < minCircuitThreshold then
    withMark { p with Circuit := { p.Circuit with Threshold := minCircuitThreshold } } "circuit.threshold"
  else p

/-- `Normalize`, `Circuit.Cooldown` block: default 10 s when
non-positive, then floor at 100 ms. -/
def normCircuitCooldown (p : EffectivePolicy) : EffectivePolicy :=
  let p :=
    if p.Circuit.Cooldown ≤ 0 then
      withMark { p with Circuit := { p.Circuit with Cooldown := 10 * second } } "circuit.cooldown"
    else p
  if p.Circuit.Cooldown < minCircuitCooldown then
    withMark { p with Circuit := { p.Circuit with Cooldown := minCircuitCooldown } } "circuit.cooldown"
  else p

/-- The tail of `Normalize` from the `Circuit.Enabled` early return on. -/
def normalizeCircuitTail (q : EffectivePolicy) : Except NormalizeError EffectivePolicy :=
  if ¬q.Circuit.Enabled then .ok q
  else .ok (normCircuitCooldown (normCircuitThreshold q))

/-- The tail of `Normalize` from the `Hedge.Enabled` early return on. -/
def normalizeTail (q : EffectivePolicy) : Except NormalizeError EffectivePolicy :=
  if ¬q.Hedge.Enabled then .ok q
  else normalizeCircuitTail (normHedgeDelay (normMaxHedges q))

/-- `policy.EffectivePolicy.Normalize`: sequential field normalization in
source order, with the early returns when hedging or circuit breaking is
disabled. -/
def EffectivePolicy.Normalize (p : EffectivePolicy) : Except NormalizeError EffectivePolicy :=
  match normJitter (normBackoffMultiplier (normMaxBackoff (normInitialBackoff (normMaxAttempts p)))) with
  | .error e => .error e
  | .ok q =>
    normalizeTail (normHedgeBudgetCost (normRetryBudgetCost (normOverallTimeout (normTimeoutPerAttempt q))))

/-- The Go `unicode.IsSpace` predicate used by `strings.TrimSpace`
(Latin-1 fast path plus the Unicode White_Space code points). -/
def isGoSpace (c : Char) : Bool :=
  c = '\t' ∨ c = '\n' ∨ c.toNat = 11 ∨ c.toNat = 12 ∨ c = '\r' ∨ c = ' ' ∨
  c.toNat = 133 ∨ c.toNat = 160 ∨ c.toNat = 5760 ∨
  (8192 ≤ c.toNat ∧ c.toNat ≤ 8202) ∨ c.toNat = 8232 ∨ c.toNat = 8233 ∨
  c.toNat = 8239 ∨ c.toNat = 8287 ∨ c.toNat = 12288

/-- Leading-whitespace trim. -/
def trimLeft (s : GoString) : GoString := s.dropWhile isGoSpace

/-- Trailing-whitespace trim. -/
def trimRight (s : GoString) : GoString := (trimLeft s.reverse).reverse

/-- `strings.TrimSpace`. -/
def trimSpace (s : GoString) : GoString := trimRight (trimLeft s)

/-- `strings.IndexByte(s, byte ascii-dot)`: index of the first dot, if any
(a dot byte in UTF-8 is always a full character, so the byte search and
the character search agree). -/
def indexOfDot? : GoString → Option Nat
  | [] => none
  | c :: rest => if c = '.' then some 0 else (indexOfDot? rest).map (· + 1)

/-- `policy.ParseKey`: parse `"namespace.name"`; with no dot the whole
string is the name; an empty name after the first dot also makes the
whole string the name. -/
def ParseKey (s0 : GoString) : PolicyKey :=
  let s := trimSpace s0
  if s = [] then ⟨[], []⟩
  else
    match indexOfDot? s with
    | none => ⟨[], s⟩
    | some i =>
      let ns := trimSpace (s.take i)
      let name := trimSpace (s.drop (i + 1))
      if name = [] then ⟨[], s⟩
      else ⟨ns, name⟩

/-- `policy.PolicyKey.String`: print as `"namespace.name"`, omitting an
empty component. -/
def PolicyKey.String (k : PolicyKey) : GoString :=
  if k.Namespace = [] then k.Name
  else if k.Name = [] then k.Namespace
  else k.Namespace ++ '.' :: k.Name

/-- An `policy.Option` mutates the policy under construction. -/
abbrev PolicyOption := EffectivePolicy → EffectivePolicy

/-- `policy.NewFromKey`: start from the default policy, apply the
options in order, normalize; on a normalization error fall back to the
normalized default policy (the Go code ignores the second error, where
`Normalize` would have produced the zero policy). -/
def NewFromKey (key : PolicyKey) (opts : List PolicyOption) : EffectivePolicy :=
  match (opts.foldl (fun acc o => o acc) (DefaultPolicyFor key)).Normalize with
  | .ok n => n
  | .error _ =>
    match (DefaultPolicyFor key).Normalize with
    | .ok n => n
    | .error _ => zeroEffectivePolicy

/-- `policy.New`: parse the key string and delegate to `NewFromKey`. -/
def New (key : GoString) (opts : List PolicyOption) : EffectivePolicy :=
  NewFromKey (ParseKey key) opts

/-- The `policy.Jitter` option: set the jitter strategy. -/
def JitterOption (j : String) : PolicyOption :=
  fun p => { p with Retry := { p.Retry with Jitter := j } }

/-- The `policy.MaxAttempts` option. -/
def MaxAttemptsOption (n : Int) : PolicyOption :=
  fun p => { p with Retry := { p.Retry with MaxAttempts := n } }

/-- `hedge.HedgeState` as built by `doRetryGroup`: the start of the
group, primary-plus-hedges launched so far, the policy cap, and elapsed
time since the group started. -/
structure HedgeState where
  AttemptStart : Int
  AttemptsLaunched : Int
  MaxHedges : Int
  Elapsed : Int
deriving DecidableEq

/-- `hedge.FixedDelayTrigger`: spawns a single hedge after a fixed delay. -/
structure FixedDelayTrigger where
  Delay : Int
deriving DecidableEq

/-- `hedge.FixedDelayTrigger.ShouldSpawnHedge` (`hedge/fixed_delay.go`):
before the delay, wait out the remainder; after it, spawn only while no
hedge has been launched yet. -/
def FixedDelayTrigger.ShouldSpawnHedge (t : FixedDelayTrigger) (state : HedgeState) :
    Bool × Int :=
  if state.Elapsed < t.Delay then (false, t.Delay - state.Elapsed)
  else if state.AttemptsLaunched > 1 then (false, 0)
  else (true, 0)

/-- A hedge trigger is its `ShouldSpawnHedge` function. -/
abbrev Trigger := HedgeState → Bool × Int

/-- One observed tick of the hedge-spawner goroutine in `doRetryGroup`:
the elapsed time `e.clock().Sub(start)` at that tick.  The spawner exits
when `groupCtx` is done, so the group contributes a finite tick list. -/
abbrev SpawnerTick := Int

/-- The loop body of the hedge-spawner goroutine in `doRetryGroup`:
stop once `hedgesLaunched` reaches `maxHedges`; otherwise consult the
trigger with `AttemptsLaunched = 1 + hedgesLaunched` and launch a hedge
when it approves.  Returns the number of hedges launched. -/
def spawnerLoop (start : Int) (maxHedges : Int) (trig : Trigger) :
    Int → List SpawnerTick → Int
  | hedgesLaunched, [] => hedgesLaunched
  | hedgesLaunched, tick :: ticks =>
    if hedgesLaunched ≥ maxHedges then hedgesLaunched
    else
      let state : HedgeState :=
        { AttemptStart := start
          AttemptsLaunched := 1 + hedgesLaunched
          MaxHedges := maxHedges
          Elapsed := tick }
      if (trig state).1 then spawnerLoop start maxHedges trig (hedgesLaunched + 1) ticks
      else spawnerLoop start maxHedges trig hedgesLaunched ticks

/-- The hedge-spawner goroutine of `doRetryGroup`: absent (zero hedges)
when hedging is disabled, otherwise `spawnerLoop` from zero. -/
def runSpawner (enabled : Bool) (start : Int) (maxHedges : Int) (trig : Trigger)
    (ticks : List SpawnerTick) : Int :=
  if enabled then spawnerLoop start maxHedges trig 0 ticks else 0

/-- `maxHedges` as computed at the top of `doRetryGroup`: the policy's
`Hedge.MaxHedges` when hedging is enabled, zero otherwise. -/
def groupMaxHedges (pol : EffectivePolicy) : Int :=
  if pol.Hedge.Enabled then pol.Hedge.MaxHedges else 0

/-- Attempts launched by one retry group: the primary plus the hedges
the spawner launched. -/
def groupAttemptsLaunched (pol : EffectivePolicy) (start : Int) (trig : Trigger)
    (ticks : List SpawnerTick) : Int :=
  1 + runSpawner pol.Hedge.Enabled start (groupMaxHedges pol) trig ticks

/-- `classify.OutcomeKind`. -/
inductive OutcomeKind
  | Success
  | Retryable
  | NonRetryable
  | Abort
deriving DecidableEq

/-- `classify.Outcome` (the fields the coordinator reads). -/
structure Outcome where
  Kind : OutcomeKind
  Reason : String
deriving DecidableEq

/-- `budget.Decision` (the coordinator reads `Allowed` and `Reason`; the
`Release` handle is invoked on all exit paths and carries no data). -/
structure Decision where
  Allowed : Bool
  Reason : String
deriving DecidableEq

/-- Standard reason strings from `budget/reasons.go`. -/
def ReasonAllowed : String := "allowed"

/-- `budget.ReasonNoBudget`. -/
def ReasonNoBudget : String := "no_budget"

/-- `budget.ReasonBudgetNotFound`. -/
def ReasonBudgetNotFound : String := "budget_not_found"

/-- `budget.ReasonBudgetDenied`. -/
def ReasonBudgetDenied : String := "budget_denied"

/-- `budget.ReasonPanicInBudget`. -/
def ReasonPanicInBudget : String := "panic_in_budget"

/-- `observe.AttemptRecord` (wall-clock timestamps omitted: no verified
property reads them). -/
structure AttemptRecord where
  Attempt : Int
  IsHedge : Bool
  HedgeIndex : Int
  Outcome : Outcome
  Err : Option String
  Backoff : Int
  BudgetAllowed : Bool
  BudgetReason : String
deriving DecidableEq

/-- `retry.groupResult` as sent on the buffered results channel
(timestamps and the panic error omitted; errors are modelled by their
message). -/
structure GroupResult (α : Type) where
  val : Option α
  err : Option String
  outcome : Outcome
  isHedge : Bool
  idx : Int
deriving DecidableEq

/-- What one execution of the `launch` closure in `doRetryGroup` does:
the attempt record it appends, the result it sends, and whether it
invoked the user operation. -/
structure LaunchEffect (α : Type) where
  record : AttemptRecord
  sent : GroupResult α
  opInvoked : Bool
deriving DecidableEq

/-- The `launch` closure of `doRetryGroup` for one attempt, as a function
of the budget decision and — when allowed — the operation's value/error
and its classified outcome.  A denied decision records a denied attempt
with a synthetic abort carrying the decision reason and never runs the
operation; an allowed decision runs the operation, classifies, records,
and sends the classified result.  Hedge records carry a zero backoff. -/
def launch (α : Type) (retryIdx : Int) (idx : Int) (isHedge : Bool)
    (lastBackoff : Int) (decision : Decision)
    (opVal : Option α) (opErr : Option String) (classified : Outcome) :
    LaunchEffect α :=
  if decision.Allowed then
    { record :=
        { Attempt := retryIdx
          IsHedge := isHedge
          HedgeIndex := idx
          Outcome := classified
          Err := opErr
          Backoff := if isHedge then 0 else lastBackoff
          BudgetAllowed := true
          BudgetReason := decision.Reason }
      sent :=
        { val := opVal, err := opErr, outcome := classified
          isHedge := isHedge, idx := idx }
      opInvoked := true }
  else
    { record :=
        { Attempt := retryIdx
          IsHedge := isHedge
          HedgeIndex := idx
          Outcome := ⟨.Abort, decision.Reason⟩
          Err := none
          Backoff := if isHedge then 0 else lastBackoff
          BudgetAllowed := false
          BudgetReason := decision.Reason }
      sent :=
        { val := none, err := some decision.Reason
          outcome := ⟨.Abort, decision.Reason⟩
          isHedge := isHedge, idx := idx }
      opInvoked := false }

/-- `retry.FailureMode` for missing collaborators. -/
inductive FailureMode
  | FailureFallback
  | FailureAllow
  | FailureDeny
deriving DecidableEq

/-- Modelled from the spec: `Executor.allowAttempt` (§4.5 Budget gating)
is not under `src/`; only its signature, call sites and design notes
are.  Per the spec: an empty budget name or nil registry allows with
`no_budget`; a known name delegates to the budget's decision; an unknown
name follows `MissingBudgetMode` — allow with `budget_not_found` by
default, deny with `budget_not_found` under `FailureDeny`.  The registry
is the name-to-decision map for this attempt. -/
def allowAttempt (registry : Option (List (String × Decision))) (mode : FailureMode)
    (refName : String) : Decision :=
  match registry with
  | none => ⟨true, ReasonNoBudget⟩
  | some reg =>
    if refName = "" then ⟨true, ReasonNoBudget⟩
    else
      match reg.lookup refName with
      | some d => d
      | none =>
        match mode with
        | .FailureDeny => ⟨false, ReasonBudgetNotFound⟩
        | _ => ⟨true, ReasonBudgetNotFound⟩

/-- One step the result-fusion loop of `doRetryGroup` reacts to: either a
`groupResult` arriving on the channel together with the value
`activeAttempts.Load()` observes after it, or the caller's context
becoming done. -/
inductive FusionEvent (α : Type)
  | result (r : GroupResult α) (activeAfter : Int)
  | ctxDone (ctxErr : String)

/-- The value `doRetryGroup` returns: `(any, error, Outcome, bool)`. -/
structure GroupReturn (α : Type) where
  val : Option α
  err : Option String
  outcome : Outcome
  ok : Bool
deriving DecidableEq

/-- The result-fusion loop of `doRetryGroup` (source lines 324–373): a
success returns immediately; under `CancelOnFirstTerminal` the first
non-retryable or abort failure returns; otherwise the loop returns the
failure just received (`lastRel`) once no attempts remain active; the
caller's context becoming done returns its error with a synthetic
`Abort{context_canceled}`.  `none` means the loop is still waiting. -/
def fuseLoop (α : Type) (cancelOnFirstTerminal : Bool) :
    List (FusionEvent α) → Option (GroupReturn α)
  | [] => none
  | .ctxDone ctxErr :: _ =>
    some { val := none, err := some ctxErr
           outcome := ⟨.Abort, "context_canceled"⟩, ok := false }
  | .result r activeAfter :: rest =>
    if r.outcome.Kind = .Success then
      some { val := r.val, err := none, outcome := r.outcome, ok := true }
    else if cancelOnFirstTerminal ∧
        (r.outcome.Kind = .NonRetryable ∨ r.outcome.Kind = .Abort) then
      some { val := r.val, err := r.err, outcome := r.outcome, ok := false }
    else if activeAfter = 0 then
      some { val := r.val, err := r.err, outcome := r.outcome, ok := false }
    else
      fuseLoop α cancelOnFirstTerminal rest

/-- The specification's outcome precedence
`Success > NonRetryable > Abort > Retryable`, as a rank. -/
def specPrecedence : OutcomeKind → Nat
  | .Success => 3
  | .NonRetryable => 2
  | .Abort => 1
  | .Retryable => 0

/-- The specification's group pick among finished non-success attempts:
the first outcome of highest precedence. -/
def specGroupPick (outs : List Outcome) : Option Outcome :=
  outs.foldl
    (fun best o =>
      match best with
      | none => some o
      | some b => if specPrecedence o.Kind > specPrecedence b.Kind then some o else some b)
    none

/-- Modelled from the spec: the engine entry point (§4.1, not under
`src/`) iterates retry groups `0..MaxAttempts−1` and each launched
attempt appends exactly one attempt record (see `launch`), so a call's
record count is the sum over its retry groups of the attempts each
launched. -/
def callAttemptRecordCount (pol : EffectivePolicy) (start : Int) (trig : Trigger)
    (groups : List (List SpawnerTick)) : Int :=
  (groups.map (fun ticks => groupAttemptsLaunched pol start trig ticks)).sum

/-- The normalization metadata already records `f` as changed. -/
def MetaHas (n : NormalizationInfo) (f : String) : Prop :=
  n.Changed = true ∧ f ∈ n.ChangedFields

/-- Guardrail predicate for `Retry.MaxAttempts` after normalization. -/
def validMaxAttempts (v : Int) : Prop := 1 ≤ v ∧ v ≤ maxRetryAttempts

/-- Guardrail predicate for `Retry.InitialBackoff` after normalization. -/
def validInitialBackoff (v : Int) : Prop := minBackoffFloor ≤ v

/-- Guardrail predicate relating `InitialBackoff`, `MaxBackoff` and the
normalization metadata after normalization: `MaxBackoff` dominates
`InitialBackoff`, and either respects the 30 s ceiling or equals an
`InitialBackoff` that exceeds it (in which case the clamp was
recorded). -/
def validMaxBackoff (ib mb : Int) (n : NormalizationInfo) : Prop :=
  ib ≤ mb ∧ (mb ≤ maxBackoffCeiling ∨ (mb = ib ∧ MetaHas n "retry.max_backoff"))

/-- Guardrail predicate for `Retry.BackoffMultiplier`. -/
def validMultiplier (m : ℚ) : Prop := 1 ≤ m ∧ m ≤ maxBackoffMultiplier

/-- Guardrail predicate for `Retry.Jitter`. -/
def validJitter (j : String) : Prop := j = "none" ∨ j = "full" ∨ j = "equal"

/-- Guardrail predicate for the two timeout fields. -/
def validTimeout (t : Int) : Prop := t = 0 ∨ minTimeoutFloor ≤ t

/-- Guardrail predicate for budget costs. -/
def validCost (c : Int) : Prop := 1 ≤ c

/-- Guardrail predicate for the hedge section (vacuous when hedging is
disabled, matching the early return in `Normalize`). -/
def validHedge (enabled : Bool) (mh : Int) (hd : Int) : Prop :=
  enabled = true → 1 ≤ mh ∧ mh ≤ maxHedgesCap ∧ minHedgeDelayFloor ≤ hd

/-- Guardrail predicate for the circuit section (only reached when the
hedge section is enabled, matching the early returns in `Normalize`). -/
def validCircuit (hedgeEnabled circuitEnabled : Bool) (th : Int) (cd : Int) : Prop :=
  hedgeEnabled = true → circuitEnabled = true →
    minCircuitThreshold ≤ th ∧ minCircuitCooldown ≤ cd

/-- Everything a successful `Normalize` guarantees about its result. -/
def NormalizedInv (p : EffectivePolicy) : Prop :=
  validMaxAttempts p.Retry.MaxAttempts ∧
  validInitialBackoff p.Retry.InitialBackoff ∧
  validMaxBackoff p.Retry.InitialBackoff p.Retry.MaxBackoff p.Meta.Normalization ∧
  validMultiplier p.Retry.BackoffMultiplier ∧
  validJitter p.Retry.Jitter ∧
  validTimeout p.Retry.TimeoutPerAttempt ∧
  validTimeout p.Retry.OverallTimeout ∧
  validCost p.Retry.Budget.Cost ∧
  validCost p.Hedge.Budget.Cost ∧
  validHedge p.Hedge.Enabled p.Hedge.MaxHedges p.Hedge.HedgeDelay ∧
  validCircuit p.Hedge.Enabled p.Circuit.Enabled p.Circuit.Threshold p.Circuit.Cooldown

/-- A policy whose `InitialBackoff` exceeds the 30 s ceiling: normalization
succeeds but cannot keep `MaxBackoff` under the ceiling. -/
def largeInitialBackoffPolicy : EffectivePolicy :=
  { zeroEffectivePolicy with
    Retry := { zeroEffectivePolicy.Retry with
      InitialBackoff := 60 * second, Jitter := "none" } }

/-- The normalized form of `largeInitialBackoffPolicy` (falling back to
the zero policy on an error, which does not occur). -/
def largeInitialBackoffNormalized : EffectivePolicy :=
  match largeInitialBackoffPolicy.Normalize with
  | .ok q => q
  | .error _ => zeroEffectivePolicy

/-- The normalized form of the zero policy. -/
def zeroNormalized : EffectivePolicy :=
  match zeroEffectivePolicy.Normalize with
  | .ok q => q
  | .error _ => zeroEffectivePolicy

/-- A policy needing several clamps, used to witness idempotence. -/
def clampedWitnessPolicy : EffectivePolicy :=
  { zeroEffectivePolicy with
    Retry := { zeroEffectivePolicy.Retry with
      MaxAttempts := 50, InitialBackoff := 45 * second, Jitter := "" }
    Hedge := { zeroEffectivePolicy.Hedge with Enabled := true, MaxHedges := 9 } }

/-- The normalized form of `clampedWitnessPolicy`. -/
def clampedWitnessNormalized : EffectivePolicy :=
  match clampedWitnessPolicy.Normalize with
  | .ok q => q
  | .error _ => zeroEffectivePolicy

/-- A concrete hedging policy used by witnesses. -/
def hedgingWitnessPolicy : EffectivePolicy :=
  { zeroEffectivePolicy with
    Retry := { zeroEffectivePolicy.Retry with MaxAttempts := 3 }
    Hedge := { zeroEffectivePolicy.Hedge with Enabled := true, MaxHedges := 2 } }

/-! Theorems.  Each claim theorem carries the claim id in its doc
comment; supporting lemmas are shared. -/

theorem spawnerLoop_cons (start maxH : Int) (trig : Trigger) (hl : Int)
    (tick : SpawnerTick) (ts : List SpawnerTick) :
    spawnerLoop start maxH trig hl (tick :: ts) =
      if hl ≥ maxH then hl
      else if (trig ⟨start, 1 + hl, maxH, tick⟩).1 then
        spawnerLoop start maxH trig (hl + 1) ts
      else spawnerLoop start maxH trig hl ts := rfl

theorem spawnerLoop_le_of_le (start maxH : Int) (trig : Trigger) :
    ∀ (ticks : List SpawnerTick) (hl : Int), hl ≤ maxH →
      spawnerLoop start maxH trig hl ticks ≤ maxH := by
  intro ticks
  induction ticks with
  | nil => intro hl h; simpa [spawnerLoop] using h
  | cons tick ts ih =>
    intro hl h
    rw [spawnerLoop_cons]
    by_cases hge : hl ≥ maxH
    · simpa [hge] using h
    · by_cases hs : (trig ⟨start, 1 + hl, maxH, tick⟩).1
      · simpa [hge, hs] using ih (hl + 1) (by omega)
      · simpa [hge, hs] using ih hl h

theorem runSpawner_le (enabled : Bool) (start maxH : Int) (trig : Trigger)
    (ticks : List SpawnerTick) (h : 0 ≤ maxH) :
    runSpawner enabled start maxH trig ticks ≤ maxH := by
  cases enabled with
  | false => simpa [runSpawner] using h
  | true => simpa [runSpawner] using spawnerLoop_le_of_le start maxH trig ticks 0 h

theorem runSpawner_disabled (start maxH : Int) (trig : Trigger)
    (ticks : List SpawnerTick) : runSpawner false start maxH trig ticks = 0 := rfl

theorem fixedDelay_false_of_many (t : FixedDelayTrigger) (s : HedgeState)
    (h : 1 < s.AttemptsLaunched) : (t.ShouldSpawnHedge s).1 = false := by
  unfold FixedDelayTrigger.ShouldSpawnHedge
  split_ifs <;> simp_all

theorem spawnerLoop_fixedDelay_frozen (t : FixedDelayTrigger) (start maxH : Int) :
    ∀ (ticks : List SpawnerTick) (hl : Int), 1 ≤ hl →
      spawnerLoop start maxH t.ShouldSpawnHedge hl ticks = hl := by
  intro ticks
  induction ticks with
  | nil => intro hl _; rfl
  | cons tick ts ih =>
    intro hl h
    rw [spawnerLoop_cons]
    by_cases hge : hl ≥ maxH
    · simp [hge]
    · have hfalse : (t.ShouldSpawnHedge ⟨start, 1 + hl, maxH, tick⟩).1 = false :=
        fixedDelay_false_of_many t _ (by simp; omega)
      simpa [hge, hfalse] using ih hl h

theorem spawnerLoop_fixedDelay_le_one (t : FixedDelayTrigger) (start maxH : Int) :
    ∀ ticks : List SpawnerTick,
      spawnerLoop start maxH t.ShouldSpawnHedge 0 ticks ≤ 1 := by
  intro ticks
  cases ticks with
  | nil => simp [spawnerLoop]
  | cons tick ts =>
    rw [spawnerLoop_cons]
    by_cases hge : (0 : Int) ≥ maxH
    · simp [hge]
    · by_cases hs : (t.ShouldSpawnHedge ⟨start, 1 + 0, maxH, tick⟩).1
      · simp only [hge, if_false, hs, if_true]
        exact le_of_eq (spawnerLoop_fixedDelay_frozen t start maxH ts 1 le_rfl)
      · simp only [hge, if_false, hs]
        have h0 : spawnerLoop start maxH t.ShouldSpawnHedge 0 ts ≤ 1 :=
          spawnerLoop_fixedDelay_le_one t start maxH ts
        exact h0
termination_by ticks => ticks.length

/-- Claim C8: `FixedDelayTrigger.ShouldSpawnHedge` is a pure function of
its `HedgeState`: below the delay it returns `(false, Delay − Elapsed)`;
at or past the delay it returns true exactly when `AttemptsLaunched ≤ 1`
and `(false, 0)` otherwise, so inside the hedge spawner the default
fixed-delay trigger approves at most one hedge per retry group, whatever
the policy's `MaxHedges`. -/
theorem fixedDelay_spawns_at_most_one (t : FixedDelayTrigger) (s : HedgeState) :
    (s.Elapsed < t.Delay → t.ShouldSpawnHedge s = (false, t.Delay - s.Elapsed)) ∧
    (t.Delay ≤ s.Elapsed →
      (((t.ShouldSpawnHedge s).1 = true) ↔ s.AttemptsLaunched ≤ 1) ∧
      (1 < s.AttemptsLaunched → t.ShouldSpawnHedge s = (false, 0))) ∧
    (∀ (start maxH : Int) (ticks : List SpawnerTick),
      runSpawner true start maxH t.ShouldSpawnHedge ticks ≤ 1) := by
  refine ⟨?_, ?_, ?_⟩
  · intro h; simp [FixedDelayTrigger.ShouldSpawnHedge, h]
  · intro h
    constructor
    · unfold FixedDelayTrigger.ShouldSpawnHedge
      split_ifs with h1 h2
      · exact absurd h1 (not_lt.mpr h)
      · exact iff_of_false (by simp) (by omega)
      · exact iff_of_true rfl (by omega)
    · exact fun hmany => by
        simp [FixedDelayTrigger.ShouldSpawnHedge, not_lt.mpr h, hmany]
  · intro start maxH ticks
    simpa [runSpawner] using spawnerLoop_fixedDelay_le_one t start maxH ticks

/-- Witness for C8 at a concrete trigger and state. -/
theorem fixedDelay_spawns_at_most_one_witness :
    FixedDelayTrigger.ShouldSpawnHedge ⟨20⟩ ⟨0, 1, 2, 5⟩ = (false, 15) ∧
    runSpawner true 0 3 (FixedDelayTrigger.ShouldSpawnHedge ⟨20⟩) [25, 50, 75] ≤ 1 :=
  ⟨(fixedDelay_spawns_at_most_one ⟨20⟩ ⟨0, 1, 2, 5⟩).1 (by decide),
   (fixedDelay_spawns_at_most_one ⟨20⟩ ⟨0, 1, 2, 5⟩).2.2 0 3 [25, 50, 75]⟩

/-- Claim C1: evaluation of the result-fusion loop at the divergent
schedule.  With `CancelOnFirstTerminal = false`, a `NonRetryable` result
arrives first while one attempt is still active, then a `Retryable`
result arrives last; `doRetryGroup` returns the last completed failure
(`Retryable`), while the specification's precedence
(`NonRetryable > Abort > Retryable`) picks the `NonRetryable` one. -/
theorem fuseLoop_returns_last_not_precedence :
    fuseLoop Unit false
      [.result ⟨none, some "validation failed", ⟨.NonRetryable, "validation"⟩, false, 0⟩ 1,
       .result ⟨none, some "timeout", ⟨.Retryable, "default_retry"⟩, true, 1⟩ 0] =
      some ⟨none, some "timeout", ⟨.Retryable, "default_retry"⟩, false⟩ ∧
    specGroupPick [⟨.NonRetryable, "validation"⟩, ⟨.Retryable, "default_retry"⟩] =
      some ⟨.NonRetryable, "validation"⟩ := by
  constructor <;> rfl

/-- Claim C2: evaluation of the `launch` closure for a primary and a
hedge of the same retry group (`retryIdx = 0`).  Both attempt records
carry `Attempt = 0`: the recorded `Attempt` value is the retry-group
index, so a hedge does not carry a larger `Attempt` value than its
primary and the per-call sequence is not strictly increasing. -/
theorem launch_attempt_field_not_increasing :
    (launch Unit 0 0 false 0 ⟨true, ReasonAllowed⟩ (some ()) none
        ⟨.Retryable, "default_retry"⟩).record.Attempt = 0 ∧
    (launch Unit 0 1 true 0 ⟨true, ReasonAllowed⟩ (some ()) none
        ⟨.Retryable, "default_retry"⟩).record.Attempt = 0 ∧
    ¬((launch Unit 0 0 false 0 ⟨true, ReasonAllowed⟩ (some ()) none
        ⟨.Retryable, "default_retry"⟩).record.Attempt <
      (launch Unit 0 1 true 0 ⟨true, ReasonAllowed⟩ (some ()) none
        ⟨.Retryable, "default_retry"⟩).record.Attempt) := by
  refine ⟨rfl, rfl, by decide⟩

/-- Counterexample to C3 as stated: under `FailureDeny` with an unknown
budget name, `allowAttempt` (modelled from the spec) denies with reason
`budget_not_found`, and the synthetic abort sent by `launch` carries that
reason — not `budget_denied`. -/
theorem denied_attempt_reason_counterexample :
    (allowAttempt (some []) .FailureDeny "missing").Allowed = false ∧
    (launch Unit 0 0 false 0 (allowAttempt (some []) .FailureDeny "missing")
        none none ⟨.Retryable, "default_retry"⟩).sent.outcome.Reason ≠
      ReasonBudgetDenied := by
  refine ⟨rfl, by decide⟩

/-- Claim C3 (amended): for every attempt whose budget decision is
denied, `launch` appends a denied record with `BudgetAllowed = false`
whose outcome is a synthetic abort carrying the decision's reason
(`budget_denied` whenever the budget itself denied), sends that abort
through the results channel with the attempt's `isHedge` flag, and never
invokes the user operation. -/
theorem denied_attempt_semantics (α : Type) (retryIdx idx : Int) (isHedge : Bool)
    (lastBackoff : Int) (d : Decision) (v : Option α) (e : Option String)
    (o : Outcome) (hd : d.Allowed = false) :
    (launch α retryIdx idx isHedge lastBackoff d v e o).record.BudgetAllowed = false ∧
    (launch α retryIdx idx isHedge lastBackoff d v e o).record.BudgetReason = d.Reason ∧
    (launch α retryIdx idx isHedge lastBackoff d v e o).record.Outcome =
      ⟨.Abort, d.Reason⟩ ∧
    (launch α retryIdx idx isHedge lastBackoff d v e o).sent.outcome =
      ⟨.Abort, d.Reason⟩ ∧
    (launch α retryIdx idx isHedge lastBackoff d v e o).sent.isHedge = isHedge ∧
    (launch α retryIdx idx isHedge lastBackoff d v e o).opInvoked = false := by
  simp [launch, hd]

/-- Witness for C3 (amended) at a concrete denied hedge attempt. -/
theorem denied_attempt_semantics_witness :
    (launch Unit 1 2 true 5 ⟨false, ReasonBudgetDenied⟩ none none
        ⟨.Retryable, "default_retry"⟩).record.BudgetAllowed = false ∧
    (launch Unit 1 2 true 5 ⟨false, ReasonBudgetDenied⟩ none none
        ⟨.Retryable, "default_retry"⟩).record.BudgetReason = ReasonBudgetDenied ∧
    (launch Unit 1 2 true 5 ⟨false, ReasonBudgetDenied⟩ none none
        ⟨.Retryable, "default_retry"⟩).record.Outcome = ⟨.Abort, ReasonBudgetDenied⟩ ∧
    (launch Unit 1 2 true 5 ⟨false, ReasonBudgetDenied⟩ none none
        ⟨.Retryable, "default_retry"⟩).sent.outcome = ⟨.Abort, ReasonBudgetDenied⟩ ∧
    (launch Unit 1 2 true 5 ⟨false, ReasonBudgetDenied⟩ none none
        ⟨.Retryable, "default_retry"⟩).sent.isHedge = true ∧
    (launch Unit 1 2 true 5 ⟨false, ReasonBudgetDenied⟩ none none
        ⟨.Retryable, "default_retry"⟩).opInvoked = false :=
  denied_attempt_semantics Unit 1 2 true 5 ⟨false, ReasonBudgetDenied⟩ none none
    ⟨.Retryable, "default_retry"⟩ rfl

/-- Counterexample to C4 as stated: the synthetic abort returned on
external context cancellation carries the literal reason
`context_canceled`, not the claimed `ctx_canceled`. -/
theorem external_cancel_reason_counterexample :
    fuseLoop Unit false [.ctxDone "context canceled"] =
      some ⟨none, some "context canceled", ⟨.Abort, "context_canceled"⟩, false⟩ ∧
    ("context_canceled" : String) ≠ "ctx_canceled" := by
  refine ⟨rfl, by decide⟩

/-- Claim C4 (amended): whenever the caller's context becomes done
before the fusion loop has chosen a group result, `doRetryGroup` returns
the caller's context error together with an abort outcome whose reason
is `context_canceled`, and the results of attempts still in flight
(everything after the cancellation) do not override this external
abort. -/
theorem external_cancel_wins (α : Type) (c : Bool) (pre : List (FusionEvent α))
    (e : String) (rest : List (FusionEvent α)) (h : fuseLoop α c pre = none) :
    fuseLoop α c (pre ++ .ctxDone e :: rest) =
      some ⟨none, some e, ⟨.Abort, "context_canceled"⟩, false⟩ := by
  induction pre with
  | nil => rfl
  | cons x xs ih =>
    cases x with
    | ctxDone f => simp [fuseLoop] at h
    | result r activeAfter =>
      by_cases h1 : r.outcome.Kind = .Success
      · simp [fuseLoop, h1] at h
      · by_cases h2 : c ∧ (r.outcome.Kind = .NonRetryable ∨ r.outcome.Kind = .Abort)
        · simp [fuseLoop, h1, h2] at h
        · by_cases h3 : activeAfter = 0
          · simp [fuseLoop, h1, h2, h3] at h
          · have h4 : fuseLoop α c xs = none := by
              simpa [fuseLoop, h1, h2, h3] using h
            simpa [fuseLoop, h1, h2, h3] using ih h4

/-- Witness for C4 (amended): cancellation with a success still pending
behind it does not override the external abort. -/
theorem external_cancel_wins_witness :
    fuseLoop Unit true
      ([] ++ .ctxDone "deadline exceeded" ::
        [.result ⟨some (), none, ⟨.Success, "ok"⟩, false, 0⟩ 0]) =
      some ⟨none, some "deadline exceeded", ⟨.Abort, "context_canceled"⟩, false⟩ :=
  external_cancel_wins Unit true [] "deadline exceeded"
    [.result ⟨some (), none, ⟨.Success, "ok"⟩, false, 0⟩ 0] rfl

theorem metaHas_markChanged (n : NormalizationInfo) (f g : String)
    (h : MetaHas n g) : MetaHas (markChanged n f) g := by
  obtain ⟨h1, h2⟩ := h
  refine ⟨rfl, ?_⟩
  unfold markChanged
  split_ifs with hf
  · exact h2
  · simp only [List.mem_append]
    exact Or.inl h2

theorem metaHas_markChanged_self (n : NormalizationInfo) (f : String) :
    MetaHas (markChanged n f) f := by
  refine ⟨rfl, ?_⟩
  unfold markChanged
  split_ifs with hf
  · exact hf
  · simp

theorem markChanged_eq_self (n : NormalizationInfo) (f : String)
    (h : MetaHas n f) : markChanged n f = n := by
  obtain ⟨h1, h2⟩ := h
  cases n with
  | mk c fs => simp_all [markChanged]

theorem normMaxAttempts_valid (p : EffectivePolicy) :
    validMaxAttempts (normMaxAttempts p).Retry.MaxAttempts := by
  simp only [normMaxAttempts, withMark]
  split_ifs <;> simp_all [validMaxAttempts, maxRetryAttempts]

theorem normMaxAttempts_frames (p : EffectivePolicy) :
    (normMaxAttempts p).Retry.InitialBackoff = p.Retry.InitialBackoff ∧
    (normMaxAttempts p).Retry.MaxBackoff = p.Retry.MaxBackoff ∧
    (normMaxAttempts p).Retry.BackoffMultiplier = p.Retry.BackoffMultiplier ∧
    (normMaxAttempts p).Retry.Jitter = p.Retry.Jitter ∧
    (normMaxAttempts p).Retry.TimeoutPerAttempt = p.Retry.TimeoutPerAttempt ∧
    (normMaxAttempts p).Retry.OverallTimeout = p.Retry.OverallTimeout ∧
    (normMaxAttempts p).Retry.Budget = p.Retry.Budget ∧
    (normMaxAttempts p).Hedge = p.Hedge ∧
    (normMaxAttempts p).Circuit = p.Circuit := by
  simp only [normMaxAttempts, withMark]
  split_ifs <;> exact ⟨rfl, rfl, rfl, rfl, rfl, rfl, rfl, rfl, rfl⟩

theorem normMaxAttempts_metaHas (p : EffectivePolicy) (g : String)
    (h : MetaHas p.Meta.Normalization g) :
    MetaHas (normMaxAttempts p).Meta.Normalization g := by
  simp only [normMaxAttempts, withMark]
  split_ifs <;>
    first
      | exact h
      | exact metaHas_markChanged _ _ _ h
      | exact metaHas_markChanged _ _ _ (metaHas_markChanged _ _ _ h)

theorem normInitialBackoff_valid (p : EffectivePolicy) :
    validInitialBackoff (normInitialBackoff p).Retry.InitialBackoff := by
  simp only [normInitialBackoff, withMark]
  split_ifs <;> simp_all [validInitialBackoff, minBackoffFloor, millisecond]

theorem normInitialBackoff_frames (p : EffectivePolicy) :
    (normInitialBackoff p).Retry.MaxAttempts = p.Retry.MaxAttempts ∧
    (normInitialBackoff p).Retry.MaxBackoff = p.Retry.MaxBackoff ∧
    (normInitialBackoff p).Retry.BackoffMultiplier = p.Retry.BackoffMultiplier ∧
    (normInitialBackoff p).Retry.Jitter = p.Retry.Jitter ∧
    (normInitialBackoff p).Retry.TimeoutPerAttempt = p.Retry.TimeoutPerAttempt ∧
    (normInitialBackoff p).Retry.OverallTimeout = p.Retry.OverallTimeout ∧
    (normInitialBackoff p).Retry.Budget = p.Retry.Budget ∧
    (normInitialBackoff p).Hedge = p.Hedge ∧
    (normInitialBackoff p).Circuit = p.Circuit := by
  simp only [normInitialBackoff, withMark]
  split_ifs <;> exact ⟨rfl, rfl, rfl, rfl, rfl, rfl, rfl, rfl, rfl⟩

theorem normInitialBackoff_metaHas (p : EffectivePolicy) (g : String)
    (h : MetaHas p.Meta.Normalization g) :
    MetaHas (normInitialBackoff p).Meta.Normalization g := by
  simp only [normInitialBackoff, withMark]
  split_ifs <;>
    first
      | exact h
      | exact metaHas_markChanged _ _ _ h
      | exact metaHas_markChanged _ _ _ (metaHas_markChanged _ _ _ h)

theorem normMaxBackoff_valid (p : EffectivePolicy) :
    validMaxBackoff (normMaxBackoff p).Retry.InitialBackoff
      (normMaxBackoff p).Retry.MaxBackoff
      (normMaxBackoff p).Meta.Normalization := by
  simp only [normMaxBackoff, withMark]
  split_ifs <;>
    refine ⟨by simp_all, ?_⟩ <;>
    first
      | (right; exact ⟨rfl, metaHas_markChanged_self _ _⟩)
      | (left; simp_all [maxBackoffCeiling, second, millisecond])

theorem normMaxBackoff_frames (p : EffectivePolicy) :
    (normMaxBackoff p).Retry.MaxAttempts = p.Retry.MaxAttempts ∧
    (normMaxBackoff p).Retry.InitialBackoff = p.Retry.InitialBackoff ∧
    (normMaxBackoff p).Retry.BackoffMultiplier = p.Retry.BackoffMultiplier ∧
    (normMaxBackoff p).Retry.Jitter = p.Retry.Jitter ∧
    (normMaxBackoff p).Retry.TimeoutPerAttempt = p.Retry.TimeoutPerAttempt ∧
    (normMaxBackoff p).Retry.OverallTimeout = p.Retry.OverallTimeout ∧
    (normMaxBackoff p).Retry.Budget = p.Retry.Budget ∧
    (normMaxBackoff p).Hedge = p.Hedge ∧
    (normMaxBackoff p).Circuit = p.Circuit := by
  simp only [normMaxBackoff, withMark]
  split_ifs <;> exact ⟨rfl, rfl, rfl, rfl, rfl, rfl, rfl, rfl, rfl⟩

theorem normMaxBackoff_metaHas (p : EffectivePolicy) (g : String)
    (h : MetaHas p.Meta.Normalization g) :
    MetaHas (normMaxBackoff p).Meta.Normalization g := by
  simp only [normMaxBackoff, withMark]
  split_ifs <;>
    first
      | exact h
      | exact metaHas_markChanged _ _ _ h
      | exact metaHas_markChanged _ _ _ (metaHas_markChanged _ _ _ h)
      | exact metaHas_markChanged _ _ _
          (metaHas_markChanged _ _ _ (metaHas_markChanged _ _ _ h))

theorem normBackoffMultiplier_valid (p : EffectivePolicy) :
    validMultiplier (normBackoffMultiplier p).Retry.BackoffMultiplier := by
  simp only [normBackoffMultiplier, withMark]
  split_ifs <;> simp_all [validMultiplier, maxBackoffMultiplier]

theorem normBackoffMultiplier_frames (p : EffectivePolicy) :
    (normBackoffMultiplier p).Retry.MaxAttempts = p.Retry.MaxAttempts ∧
    (normBackoffMultiplier p).Retry.InitialBackoff = p.Retry.InitialBackoff ∧
    (normBackoffMultiplier p).Retry.MaxBackoff = p.Retry.MaxBackoff ∧
    (normBackoffMultiplier p).Retry.Jitter = p.Retry.Jitter ∧
    (normBackoffMultiplier p).Retry.TimeoutPerAttempt = p.Retry.TimeoutPerAttempt ∧
    (normBackoffMultiplier p).Retry.OverallTimeout = p.Retry.OverallTimeout ∧
    (normBackoffMultiplier p).Retry.Budget = p.Retry.Budget ∧
    (normBackoffMultiplier p).Hedge = p.Hedge ∧
    (normBackoffMultiplier p).Circuit = p.Circuit := by
  simp only [normBackoffMultiplier, withMark]
  split_ifs <;> exact ⟨rfl, rfl, rfl, rfl, rfl, rfl, rfl, rfl, rfl⟩

theorem normBackoffMultiplier_metaHas (p : EffectivePolicy) (g : String)
    (h : MetaHas p.Meta.Normalization g) :
    MetaHas (normBackoffMultiplier p).Meta.Normalization g := by
  simp only [normBackoffMultiplier, withMark]
  split_ifs <;>
    first
      | exact h
      | exact metaHas_markChanged _ _ _ h
      | exact metaHas_markChanged _ _ _ (metaHas_markChanged _ _ _ h)

theorem normJitter_ok_spec (p q : EffectivePolicy) (h : normJitter p = .ok q) :
    validJitter q.Retry.Jitter ∧
    q.Retry.MaxAttempts = p.Retry.MaxAttempts ∧
    q.Retry.InitialBackoff = p.Retry.InitialBackoff ∧
    q.Retry.MaxBackoff = p.Retry.MaxBackoff ∧
    q.Retry.BackoffMultiplier = p.Retry.BackoffMultiplier ∧
    q.Retry.TimeoutPerAttempt = p.Retry.TimeoutPerAttempt ∧
    q.Retry.OverallTimeout = p.Retry.OverallTimeout ∧
    q.Retry.Budget = p.Retry.Budget ∧
    q.Hedge = p.Hedge ∧
    q.Circuit = p.Circuit ∧
    (∀ g, MetaHas p.Meta.Normalization g → MetaHas q.Meta.Normalization g) := by
  simp only [normJitter, withMark] at h
  split_ifs at h with h1 h2
  · cases h
    exact ⟨Or.inl rfl, rfl, rfl, rfl, rfl, rfl, rfl, rfl, rfl, rfl,
      fun g hg => metaHas_markChanged _ _ _ hg⟩
  · cases h
    exact ⟨h2, rfl, rfl, rfl, rfl, rfl, rfl, rfl, rfl, rfl, fun g hg => hg⟩

theorem normTimeoutPerAttempt_valid (p : EffectivePolicy) :
    validTimeout (normTimeoutPerAttempt p).Retry.TimeoutPerAttempt := by
  simp only [normTimeoutPerAttempt, withMark]
  split_ifs <;> simp only [validTimeout, minTimeoutFloor, millisecond] at * <;>
    first
      | omega
      | simp

theorem normTimeoutPerAttempt_frames (p : EffectivePolicy) :
    (normTimeoutPerAttempt p).Retry.MaxAttempts = p.Retry.MaxAttempts ∧
    (normTimeoutPerAttempt p).Retry.InitialBackoff = p.Retry.InitialBackoff ∧
    (normTimeoutPerAttempt p).Retry.MaxBackoff = p.Retry.MaxBackoff ∧
    (normTimeoutPerAttempt p).Retry.BackoffMultiplier = p.Retry.BackoffMultiplier ∧
    (normTimeoutPerAttempt p).Retry.Jitter = p.Retry.Jitter ∧
    (normTimeoutPerAttempt p).Retry.OverallTimeout = p.Retry.OverallTimeout ∧
    (normTimeoutPerAttempt p).Retry.Budget = p.Retry.Budget ∧
    (normTimeoutPerAttempt p).Hedge = p.Hedge ∧
    (normTimeoutPerAttempt p).Circuit = p.Circuit := by
  simp only [normTimeoutPerAttempt, withMark]
  split_ifs <;> exact ⟨rfl, rfl, rfl, rfl, rfl, rfl, rfl, rfl, rfl⟩

theorem normTimeoutPerAttempt_metaHas (p : EffectivePolicy) (g : String)
    (h : MetaHas p.Meta.Normalization g) :
    MetaHas (normTimeoutPerAttempt p).Meta.Normalization g := by
  simp only [normTimeoutPerAttempt, withMark]
  split_ifs <;>
    first
      | exact h
      | exact metaHas_markChanged _ _ _ h
      | exact metaHas_markChanged _ _ _ (metaHas_markChanged _ _ _ h)

theorem normOverallTimeout_valid (p : EffectivePolicy) :
    validTimeout (normOverallTimeout p).Retry.OverallTimeout := by
  simp only [normOverallTimeout, withMark]
  split_ifs <;> simp only [validTimeout, minTimeoutFloor, millisecond] at * <;>
    first
      | omega
      | simp

theorem normOverallTimeout_frames (p : EffectivePolicy) :
    (normOverallTimeout p).Retry.MaxAttempts = p.Retry.MaxAttempts ∧
    (normOverallTimeout p).Retry.InitialBackoff = p.Retry.InitialBackoff ∧
    (normOverallTimeout p).Retry.MaxBackoff = p.Retry.MaxBackoff ∧
    (normOverallTimeout p).Retry.BackoffMultiplier = p.Retry.BackoffMultiplier ∧
    (normOverallTimeout p).Retry.Jitter = p.Retry.Jitter ∧
    (normOverallTimeout p).Retry.TimeoutPerAttempt = p.Retry.TimeoutPerAttempt ∧
    (normOverallTimeout p).Retry.Budget = p.Retry.Budget ∧
    (normOverallTimeout p).Hedge = p.Hedge ∧
    (normOverallTimeout p).Circuit = p.Circuit := by
  simp only [normOverallTimeout, withMark]
  split_ifs <;> exact ⟨rfl, rfl, rfl, rfl, rfl, rfl, rfl, rfl, rfl⟩

theorem normOverallTimeout_metaHas (p : EffectivePolicy) (g : String)
    (h : MetaHas p.Meta.Normalization g) :
    MetaHas (normOverallTimeout p).Meta.Normalization g := by
  simp only [normOverallTimeout, withMark]
  split_ifs <;>
    first
      | exact h
      | exact metaHas_markChanged _ _ _ h
      | exact metaHas_markChanged _ _ _ (metaHas_markChanged _ _ _ h)

theorem normRetryBudgetCost_valid (p : EffectivePolicy) :
    validCost (normRetryBudgetCost p).Retry.Budget.Cost := by
  simp only [normRetryBudgetCost, withMark]
  split_ifs <;> simp_all [validCost]

theorem normRetryBudgetCost_frames (p : EffectivePolicy) :
    (normRetryBudgetCost p).Retry.MaxAttempts = p.Retry.MaxAttempts ∧
    (normRetryBudgetCost p).Retry.InitialBackoff = p.Retry.InitialBackoff ∧
    (normRetryBudgetCost p).Retry.MaxBackoff = p.Retry.MaxBackoff ∧
    (normRetryBudgetCost p).Retry.BackoffMultiplier = p.Retry.BackoffMultiplier ∧
    (normRetryBudgetCost p).Retry.Jitter = p.Retry.Jitter ∧
    (normRetryBudgetCost p).Retry.TimeoutPerAttempt = p.Retry.TimeoutPerAttempt ∧
    (normRetryBudgetCost p).Retry.OverallTimeout = p.Retry.OverallTimeout ∧
    (normRetryBudgetCost p).Hedge = p.Hedge ∧
    (normRetryBudgetCost p).Circuit = p.Circuit := by
  simp only [normRetryBudgetCost, withMark]
  split_ifs <;> exact ⟨rfl, rfl, rfl, rfl, rfl, rfl, rfl, rfl, rfl⟩

theorem normRetryBudgetCost_metaHas (p : EffectivePolicy) (g : String)
    (h : MetaHas p.Meta.Normalization g) :
    MetaHas (normRetryBudgetCost p).Meta.Normalization g := by
  simp only [normRetryBudgetCost, withMark]
  split_ifs <;>
    first
      | exact h
      | exact metaHas_markChanged _ _ _ h
      | exact metaHas_markChanged _ _ _ (metaHas_markChanged _ _ _ h)

theorem normHedgeBudgetCost_valid (p : EffectivePolicy) :
    validCost (normHedgeBudgetCost p).Hedge.Budget.Cost := by
  simp only [normHedgeBudgetCost, withMark]
  split_ifs <;> simp_all [validCost]

theorem normHedgeBudgetCost_frames (p : EffectivePolicy) :
    (normHedgeBudgetCost p).Retry = p.Retry ∧
    (normHedgeBudgetCost p).Hedge.Enabled = p.Hedge.Enabled ∧
    (normHedgeBudgetCost p).Hedge.MaxHedges = p.Hedge.MaxHedges ∧
    (normHedgeBudgetCost p).Hedge.HedgeDelay = p.Hedge.HedgeDelay ∧
    (normHedgeBudgetCost p).Circuit = p.Circuit := by
  simp only [normHedgeBudgetCost, withMark]
  split_ifs <;> exact ⟨rfl, rfl, rfl, rfl, rfl⟩

theorem normHedgeBudgetCost_metaHas (p : EffectivePolicy) (g : String)
    (h : MetaHas p.Meta.Normalization g) :
    MetaHas (normHedgeBudgetCost p).Meta.Normalization g := by
  simp only [normHedgeBudgetCost, withMark]
  split_ifs <;>
    first
      | exact h
      | exact metaHas_markChanged _ _ _ h
      | exact metaHas_markChanged _ _ _ (metaHas_markChanged _ _ _ h)

theorem normMaxHedges_valid (p : EffectivePolicy) :
    1 ≤ (normMaxHedges p).Hedge.MaxHedges ∧
    (normMaxHedges p).Hedge.MaxHedges ≤ maxHedgesCap := by
  simp only [normMaxHedges, withMark]
  split_ifs <;> simp_all [maxHedgesCap]

theorem normMaxHedges_frames (p : EffectivePolicy) :
    (normMaxHedges p).Retry = p.Retry ∧
    (normMaxHedges p).Hedge.Enabled = p.Hedge.Enabled ∧
    (normMaxHedges p).Hedge.HedgeDelay = p.Hedge.HedgeDelay ∧
    (normMaxHedges p).Hedge.Budget = p.Hedge.Budget ∧
    (normMaxHedges p).Circuit = p.Circuit := by
  simp only [normMaxHedges, withMark]
  split_ifs <;> exact ⟨rfl, rfl, rfl, rfl, rfl⟩

theorem normMaxHedges_metaHas (p : EffectivePolicy) (g : String)
    (h : MetaHas p.Meta.Normalization g) :
    MetaHas (normMaxHedges p).Meta.Normalization g := by
  simp only [normMaxHedges, withMark]
  split_ifs <;>
    first
      | exact h
      | exact metaHas_markChanged _ _ _ h
      | exact metaHas_markChanged _ _ _ (metaHas_markChanged _ _ _ h)

theorem normHedgeDelay_valid (p : EffectivePolicy) :
    minHedgeDelayFloor ≤ (normHedgeDelay p).Hedge.HedgeDelay := by
  simp only [normHedgeDelay, withMark]
  split_ifs <;> simp_all [minHedgeDelayFloor, millisecond]

theorem normHedgeDelay_frames (p : EffectivePolicy) :
    (normHedgeDelay p).Retry = p.Retry ∧
    (normHedgeDelay p).Hedge.Enabled = p.Hedge.Enabled ∧
    (normHedgeDelay p).Hedge.MaxHedges = p.Hedge.MaxHedges ∧
    (normHedgeDelay p).Hedge.Budget = p.Hedge.Budget ∧
    (normHedgeDelay p).Circuit = p.Circuit := by
  simp only [normHedgeDelay, withMark]
  split_ifs <;> exact ⟨rfl, rfl, rfl, rfl, rfl⟩

theorem normHedgeDelay_metaHas (p : EffectivePolicy) (g : String)
    (h : MetaHas p.Meta.Normalization g) :
    MetaHas (normHedgeDelay p).Meta.Normalization g := by
  simp only [normHedgeDelay, withMark]
  split_ifs <;>
    first
      | exact h
      | exact metaHas_markChanged _ _ _ h
      | exact metaHas_markChanged _ _ _ (metaHas_markChanged _ _ _ h)

theorem normCircuitThreshold_valid (p : EffectivePolicy) :
    minCircuitThreshold ≤ (normCircuitThreshold p).Circuit.Threshold := by
  simp only [normCircuitThreshold, withMark]
  split_ifs <;> simp_all [minCircuitThreshold]

theorem normCircuitThreshold_frames (p : EffectivePolicy) :
    (normCircuitThreshold p).Retry = p.Retry ∧
    (normCircuitThreshold p).Hedge = p.Hedge ∧
    (normCircuitThreshold p).Circuit.Enabled = p.Circuit.Enabled ∧
    (normCircuitThreshold p).Circuit.Cooldown = p.Circuit.Cooldown := by
  simp only [normCircuitThreshold, withMark]
  split_ifs <;> exact ⟨rfl, rfl, rfl, rfl⟩

theorem normCircuitThreshold_metaHas (p : EffectivePolicy) (g : String)
    (h : MetaHas p.Meta.Normalization g) :
    MetaHas (normCircuitThreshold p).Meta.Normalization g := by
  simp only [normCircuitThreshold, withMark]
  split_ifs <;>
    first
      | exact h
      | exact metaHas_markChanged _ _ _ h
      | exact metaHas_markChanged _ _ _ (metaHas_markChanged _ _ _ h)

theorem normCircuitCooldown_valid (p : EffectivePolicy) :
    minCircuitCooldown ≤ (normCircuitCooldown p).Circuit.Cooldown := by
  simp only [normCircuitCooldown, withMark]
  split_ifs <;> simp_all [minCircuitCooldown, millisecond, second]

theorem normCircuitCooldown_frames (p : EffectivePolicy) :
    (normCircuitCooldown p).Retry = p.Retry ∧
    (normCircuitCooldown p).Hedge = p.Hedge ∧
    (normCircuitCooldown p).Circuit.Enabled = p.Circuit.Enabled ∧
    (normCircuitCooldown p).Circuit.Threshold = p.Circuit.Threshold := by
  simp only [normCircuitCooldown, withMark]
  split_ifs <;> exact ⟨rfl, rfl, rfl, rfl⟩

theorem normCircuitCooldown_metaHas (p : EffectivePolicy) (g : String)
    (h : MetaHas p.Meta.Normalization g) :
    MetaHas (normCircuitCooldown p).Meta.Normalization g := by
  simp only [normCircuitCooldown, withMark]
  split_ifs <;>
    first
      | exact h
      | exact metaHas_markChanged _ _ _ h
      | exact metaHas_markChanged _ _ _ (metaHas_markChanged _ _ _ h)

theorem normMaxAttempts_id (p : EffectivePolicy)
    (h : validMaxAttempts p.Retry.MaxAttempts) : normMaxAttempts p = p := by
  unfold validMaxAttempts at h
  simp only [normMaxAttempts, withMark, maxRetryAttempts] at *
  split_ifs <;> first | rfl | (exfalso; omega)

theorem normInitialBackoff_id (p : EffectivePolicy)
    (h : validInitialBackoff p.Retry.InitialBackoff) : normInitialBackoff p = p := by
  unfold validInitialBackoff at h
  simp only [normInitialBackoff, withMark, minBackoffFloor, millisecond] at *
  split_ifs <;> first | rfl | (exfalso; omega)

theorem normMaxBackoff_id (p : EffectivePolicy)
    (hIB : validInitialBackoff p.Retry.InitialBackoff)
    (hMB : validMaxBackoff p.Retry.InitialBackoff p.Retry.MaxBackoff
      p.Meta.Normalization) : normMaxBackoff p = p := by
  unfold validInitialBackoff at hIB
  obtain ⟨hLe, hCase⟩ := hMB
  have hpos : 0 < p.Retry.MaxBackoff := by
    simp only [minBackoffFloor, millisecond] at hIB; omega
  rcases hCase with hle | ⟨heq, hmeta⟩
  · simp only [normMaxBackoff, withMark, maxBackoffCeiling, second] at *
    split_ifs <;> first | rfl | (exfalso; omega)
  · obtain ⟨K, I, R, H, C, M⟩ := p
    obtain ⟨ma, ib, mb, mult, jit, tpa, ot, cn, bud⟩ := R
    obtain ⟨src, n⟩ := M
    simp only at hIB hLe heq hmeta hpos
    subst heq
    have e1 : markChanged (markChanged n "retry.max_backoff") "retry.max_backoff" = n := by
      rw [markChanged_eq_self _ _ (metaHas_markChanged_self _ _),
        markChanged_eq_self _ _ hmeta]
    simp only [normMaxBackoff, withMark]
    split_ifs <;>
      first
        | rfl
        | (simp [e1]; done)
        | (exfalso;
           simp_all [maxBackoffCeiling, second, minBackoffFloor, millisecond] <;> omega)

theorem normBackoffMultiplier_id (p : EffectivePolicy)
    (h : validMultiplier p.Retry.BackoffMultiplier) : normBackoffMultiplier p = p := by
  obtain ⟨h1, h2⟩ := h
  simp only [normBackoffMultiplier, withMark, maxBackoffMultiplier] at *
  split_ifs <;> first | rfl | (exfalso; linarith)

theorem normJitter_id (p : EffectivePolicy)
    (h : validJitter p.Retry.Jitter) : normJitter p = .ok p := by
  rcases h with h | h | h <;> simp [normJitter, h]

theorem normTimeoutPerAttempt_id (p : EffectivePolicy)
    (h : validTimeout p.Retry.TimeoutPerAttempt) : normTimeoutPerAttempt p = p := by
  unfold validTimeout at h
  simp only [normTimeoutPerAttempt, withMark, minTimeoutFloor, millisecond] at *
  split_ifs <;> first | rfl | (exfalso; omega)

theorem normOverallTimeout_id (p : EffectivePolicy)
    (h : validTimeout p.Retry.OverallTimeout) : normOverallTimeout p = p := by
  unfold validTimeout at h
  simp only [normOverallTimeout, withMark, minTimeoutFloor, millisecond] at *
  split_ifs <;> first | rfl | (exfalso; omega)

theorem normRetryBudgetCost_id (p : EffectivePolicy)
    (h : validCost p.Retry.Budget.Cost) : normRetryBudgetCost p = p := by
  unfold validCost at h
  simp only [normRetryBudgetCost, withMark] at *
  split_ifs <;> first | rfl | (exfalso; omega)

theorem normHedgeBudgetCost_id (p : EffectivePolicy)
    (h : validCost p.Hedge.Budget.Cost) : normHedgeBudgetCost p = p := by
  unfold validCost at h
  simp only [normHedgeBudgetCost, withMark] at *
  split_ifs <;> first | rfl | (exfalso; omega)

theorem normMaxHedges_id (p : EffectivePolicy)
    (h1 : 1 ≤ p.Hedge.MaxHedges) (h2 : p.Hedge.MaxHedges ≤ maxHedgesCap) :
    normMaxHedges p = p := by
  simp only [normMaxHedges, withMark, maxHedgesCap] at *
  split_ifs <;> first | rfl | (exfalso; omega)

theorem normHedgeDelay_id (p : EffectivePolicy)
    (h : minHedgeDelayFloor ≤ p.Hedge.HedgeDelay) : normHedgeDelay p = p := by
  simp only [normHedgeDelay, withMark, minHedgeDelayFloor, millisecond] at *
  split_ifs <;> first | rfl | (exfalso; omega)

theorem normCircuitThreshold_id (p : EffectivePolicy)
    (h : minCircuitThreshold ≤ p.Circuit.Threshold) : normCircuitThreshold p = p := by
  simp only [normCircuitThreshold, withMark, minCircuitThreshold] at *
  split_ifs <;> first | rfl | (exfalso; omega)

theorem normCircuitCooldown_id (p : EffectivePolicy)
    (h : minCircuitCooldown ≤ p.Circuit.Cooldown) : normCircuitCooldown p = p := by
  simp only [normCircuitCooldown, withMark, minCircuitCooldown, millisecond] at *
  split_ifs <;> first | rfl | (exfalso; omega)

theorem normalize_of_inv (p : EffectivePolicy) (h : NormalizedInv p) :
    p.Normalize = .ok p := by
  obtain ⟨hA, hB, hC, hD, hE, hF, hG, hH, hI, hJ, hK⟩ := h
  have e1 := normMaxAttempts_id p hA
  have e2 := normInitialBackoff_id p hB
  have e3 := normMaxBackoff_id p hB hC
  have e4 := normBackoffMultiplier_id p hD
  have e5 := normJitter_id p hE
  have e6 := normTimeoutPerAttempt_id p hF
  have e7 := normOverallTimeout_id p hG
  have e8 := normRetryBudgetCost_id p hH
  have e9 := normHedgeBudgetCost_id p hI
  unfold EffectivePolicy.Normalize
  rw [e1, e2, e3, e4, e5]
  show normalizeTail (normHedgeBudgetCost (normRetryBudgetCost
    (normOverallTimeout (normTimeoutPerAttempt p)))) = .ok p
  rw [e6, e7, e8, e9]
  unfold normalizeTail
  by_cases hHedge : p.Hedge.Enabled
  · obtain ⟨hMH1, hMH2, hHD⟩ := hJ hHedge
    rw [if_neg (by simp [hHedge])]
    rw [normMaxHedges_id p hMH1 hMH2, normHedgeDelay_id p hHD]
    unfold normalizeCircuitTail
    by_cases hCirc : p.Circuit.Enabled
    · obtain ⟨hTh, hCd⟩ := hK hHedge hCirc
      rw [if_neg (by simp [hCirc])]
      rw [normCircuitThreshold_id p hTh, normCircuitCooldown_id p hCd]
    · rw [if_pos (by simp [hCirc])]
  · rw [if_pos (by simp [hHedge])]

theorem validMaxBackoff_mono (ib mb : Int) (n m : NormalizationInfo)
    (mono : MetaHas n "retry.max_backoff" → MetaHas m "retry.max_backoff")
    (h : validMaxBackoff ib mb n) : validMaxBackoff ib mb m :=
  ⟨h.1, h.2.elim Or.inl (fun hc => Or.inr ⟨hc.1, mono hc.2⟩)⟩

theorem normalize_ok_inv (p q : EffectivePolicy) (h : p.Normalize = .ok q) :
    NormalizedInv q := by
  unfold EffectivePolicy.Normalize at h
  cases hj : normJitter (normBackoffMultiplier (normMaxBackoff
      (normInitialBackoff (normMaxAttempts p)))) with
  | error e => rw [hj] at h; simp at h
  | ok r =>
    rw [hj] at h
    change normalizeTail (normHedgeBudgetCost (normRetryBudgetCost
      (normOverallTimeout (normTimeoutPerAttempt r)))) = Except.ok q at h
    set a := normMaxAttempts p with hadef
    set b := normInitialBackoff a with hbdef
    set c := normMaxBackoff b with hcdef
    set d := normBackoffMultiplier c with hddef
    set t1 := normTimeoutPerAttempt r with ht1def
    set t2 := normOverallTimeout t1 with ht2def
    set t3 := normRetryBudgetCost t2 with ht3def
    set t4 := normHedgeBudgetCost t3 with ht4def
    have vA := normMaxAttempts_valid p
    have vB := normInitialBackoff_valid a
    have vC := normMaxBackoff_valid b
    have vD := normBackoffMultiplier_valid c
    have vF := normTimeoutPerAttempt_valid r
    have vG := normOverallTimeout_valid t1
    have vH := normRetryBudgetCost_valid t2
    have vI := normHedgeBudgetCost_valid t3
    obtain ⟨b1, b2, b3, b4, b5, b6, b7, b8, b9⟩ := normInitialBackoff_frames a
    obtain ⟨c1, c2, c3, c4, c5, c6, c7, c8, c9⟩ := normMaxBackoff_frames b
    obtain ⟨d1, d2, d3, d4, d5, d6, d7, d8, d9⟩ := normBackoffMultiplier_frames c
    obtain ⟨vE, j1, j2, j3, j4, j5, j6, j7, j8, j9, jM⟩ := normJitter_ok_spec d r hj
    obtain ⟨f1, f2, f3, f4, f5, f6, f7, f8, f9⟩ := normTimeoutPerAttempt_frames r
    obtain ⟨g1, g2, g3, g4, g5, g6, g7, g8, g9⟩ := normOverallTimeout_frames t1
    obtain ⟨h1, h2, h3, h4, h5, h6, h7, h8, h9⟩ := normRetryBudgetCost_frames t2
    obtain ⟨i1, i2, i3, i4, i5⟩ := normHedgeBudgetCost_frames t3
    have wA : validMaxAttempts t4.Retry.MaxAttempts := by
      rw [i1, h1, g1, f1, j1, d1, c1, b1]; exact vA
    have wB : validInitialBackoff t4.Retry.InitialBackoff := by
      rw [i1, h2, g2, f2, j2, d2, c2]; exact vB
    have wC : validMaxBackoff t4.Retry.InitialBackoff t4.Retry.MaxBackoff
        t4.Meta.Normalization := by
      rw [i1, h2, h3, g2, g3, f2, f3, j2, j3, d2, d3]
      refine validMaxBackoff_mono _ _ _ _ (fun hm => ?_) vC
      exact normHedgeBudgetCost_metaHas t3 _ (normRetryBudgetCost_metaHas t2 _
        (normOverallTimeout_metaHas t1 _ (normTimeoutPerAttempt_metaHas r _
          (jM _ (normBackoffMultiplier_metaHas c _ hm)))))
    have wD : validMultiplier t4.Retry.BackoffMultiplier := by
      rw [i1, h4, g4, f4, j4]; exact vD
    have wE : validJitter t4.Retry.Jitter := by
      rw [i1, h5, g5, f5]; exact vE
    have wF : validTimeout t4.Retry.TimeoutPerAttempt := by
      rw [i1, h6, g6]; exact vF
    have wG : validTimeout t4.Retry.OverallTimeout := by
      rw [i1, h7]; exact vG
    have wH : validCost t4.Retry.Budget.Cost := by
      rw [i1]; exact vH
    have wI : validCost t4.Hedge.Budget.Cost := vI
    unfold normalizeTail at h
    by_cases hE : t4.Hedge.Enabled
    · rw [if_neg (by simp [hE])] at h
      set u1 := normMaxHedges t4 with hu1def
      set u2 := normHedgeDelay u1 with hu2def
      have vJ := normMaxHedges_valid t4
      have vK := normHedgeDelay_valid u1
      obtain ⟨k1, k2, k3, k4, k5⟩ := normMaxHedges_frames t4
      obtain ⟨l1, l2, l3, l4, l5⟩ := normHedgeDelay_frames u1
      unfold normalizeCircuitTail at h
      by_cases hC2 : u2.Circuit.Enabled
      · rw [if_neg (by simp [hC2])] at h
        set w1 := normCircuitThreshold u2 with hw1def
        set w2 := normCircuitCooldown w1 with hw2def
        have vL := normCircuitThreshold_valid u2
        have vM := normCircuitCooldown_valid w1
        obtain ⟨m1, m2, m3, m4⟩ := normCircuitThreshold_frames u2
        obtain ⟨o1, o2, o3, o4⟩ := normCircuitCooldown_frames w1
        injection h with h
        subst h
        refine ⟨?_, ?_, ?_, ?_, ?_, ?_, ?_, ?_, ?_, ?_, ?_⟩
        · rw [o1, m1, l1, k1]; exact wA
        · rw [o1, m1, l1, k1]; exact wB
        · rw [o1, m1, l1, k1]
          refine validMaxBackoff_mono _ _ _ _ (fun hm => ?_) wC
          exact normCircuitCooldown_metaHas w1 _ (normCircuitThreshold_metaHas u2 _
            (normHedgeDelay_metaHas u1 _ (normMaxHedges_metaHas t4 _ hm)))
        · rw [o1, m1, l1, k1]; exact wD
        · rw [o1, m1, l1, k1]; exact wE
        · rw [o1, m1, l1, k1]; exact wF
        · rw [o1, m1, l1, k1]; exact wG
        · rw [o1, m1, l1, k1]; exact wH
        · rw [o2, m2, l4, k4]; exact wI
        · intro hEn
          rw [o2, m2]
          refine ⟨?_, ?_, vK⟩
          · rw [l3]; exact vJ.1
          · rw [l3]; exact vJ.2
        · intro hEn hCe
          refine ⟨?_, ?_⟩
          · rw [o4]; exact vL
          · exact vM
      · rw [if_pos (by simp [hC2])] at h
        injection h with h
        subst h
        refine ⟨?_, ?_, ?_, ?_, ?_, ?_, ?_, ?_, ?_, ?_, ?_⟩
        · rw [l1, k1]; exact wA
        · rw [l1, k1]; exact wB
        · rw [l1, k1]
          refine validMaxBackoff_mono _ _ _ _ (fun hm => ?_) wC
          exact normHedgeDelay_metaHas u1 _ (normMaxHedges_metaHas t4 _ hm)
        · rw [l1, k1]; exact wD
        · rw [l1, k1]; exact wE
        · rw [l1, k1]; exact wF
        · rw [l1, k1]; exact wG
        · rw [l1, k1]; exact wH
        · rw [l4, k4]; exact wI
        · intro hEn
          refine ⟨?_, ?_, vK⟩
          · rw [l3]; exact vJ.1
          · rw [l3]; exact vJ.2
        · intro hEn hCe
          exact absurd hCe hC2
    · rw [if_pos (by simp [hE])] at h
      injection h with h
      subst h
      refine ⟨wA, wB, wC, wD, wE, wF, wG, wH, wI, ?_, ?_⟩
      · intro hEn; exact absurd hEn hE
      · intro hEn hCe; exact absurd hEn hE

/-- Counterexample to C5 as stated: a policy whose `InitialBackoff` is
60 s normalizes successfully, yet the returned `MaxBackoff` is 60 s,
above the 30 s guardrail — the final `MaxBackoff ≥ InitialBackoff` raise
runs after the ceiling clamp. -/
theorem normalize_ceiling_counterexample :
    largeInitialBackoffPolicy.Normalize = .ok largeInitialBackoffNormalized ∧
    maxBackoffCeiling < largeInitialBackoffNormalized.Retry.MaxBackoff := by
  refine ⟨by decide, by decide⟩

/-- Claim C5 (amended): for every policy on which `Normalize` succeeds,
the result satisfies `1 ≤ MaxAttempts ≤ 10`, `InitialBackoff ≥ 1 ms`,
`InitialBackoff ≤ MaxBackoff`,
`MaxBackoff ≤ max (30 s) InitialBackoff` (the 30 s cap can be exceeded
only when `InitialBackoff` itself exceeds it, in which case
`MaxBackoff = InitialBackoff`), and `1 ≤ BackoffMultiplier ≤ 10`. -/
theorem normalize_guardrails (p q : EffectivePolicy) (h : p.Normalize = .ok q) :
    1 ≤ q.Retry.MaxAttempts ∧ q.Retry.MaxAttempts ≤ maxRetryAttempts ∧
    minBackoffFloor ≤ q.Retry.InitialBackoff ∧
    q.Retry.InitialBackoff ≤ q.Retry.MaxBackoff ∧
    q.Retry.MaxBackoff ≤ max maxBackoffCeiling q.Retry.InitialBackoff ∧
    1 ≤ q.Retry.BackoffMultiplier ∧ q.Retry.BackoffMultiplier ≤ maxBackoffMultiplier := by
  obtain ⟨hA, hB, hC, hD, -⟩ := normalize_ok_inv p q h
  refine ⟨hA.1, hA.2, hB, hC.1, ?_, hD.1, hD.2⟩
  rcases hC.2 with hle | ⟨heq, -⟩
  · exact le_trans hle (le_max_left _ _)
  · rw [heq]; exact le_max_right _ _

/-- Witness for C5 (amended) at the zero policy. -/
theorem normalize_guardrails_witness :
    1 ≤ zeroNormalized.Retry.MaxAttempts ∧
    zeroNormalized.Retry.MaxAttempts ≤ maxRetryAttempts ∧
    minBackoffFloor ≤ zeroNormalized.Retry.InitialBackoff ∧
    zeroNormalized.Retry.InitialBackoff ≤ zeroNormalized.Retry.MaxBackoff ∧
    zeroNormalized.Retry.MaxBackoff ≤
      max maxBackoffCeiling zeroNormalized.Retry.InitialBackoff ∧
    1 ≤ zeroNormalized.Retry.BackoffMultiplier ∧
    zeroNormalized.Retry.BackoffMultiplier ≤ maxBackoffMultiplier :=
  normalize_guardrails zeroEffectivePolicy zeroNormalized (by decide)

/-- Claim C6: `Normalize` is idempotent — normalizing the result of a
successful normalization returns it unchanged, every field and the
recorded changed-field metadata included. -/
theorem normalize_idempotent (p q : EffectivePolicy) (h : p.Normalize = .ok q) :
    q.Normalize = .ok q :=
  normalize_of_inv q (normalize_ok_inv p q h)

/-- Witness for C6 at a policy needing several clamps (including a
`MaxBackoff` raised above the 30 s ceiling by a large `InitialBackoff`). -/
theorem normalize_idempotent_witness :
    clampedWitnessNormalized.Normalize = .ok clampedWitnessNormalized :=
  normalize_idempotent clampedWitnessPolicy clampedWitnessNormalized (by decide)

theorem defaultPolicy_inv (key : PolicyKey) : NormalizedInv (DefaultPolicyFor key) := by
  refine ⟨?_, ?_, ?_, ?_, ?_, ?_, ?_, ?_, ?_, ?_, ?_⟩ <;>
    first
      | (simp [DefaultPolicyFor, validMaxAttempts, validInitialBackoff, validMaxBackoff,
          validMultiplier, validJitter, validTimeout, validCost, validHedge, validCircuit,
          maxRetryAttempts, minBackoffFloor, millisecond, maxBackoffCeiling, second,
          maxBackoffMultiplier]; done)
      | (simp [DefaultPolicyFor, validMaxAttempts, validInitialBackoff, validMaxBackoff,
          validMultiplier, validJitter, validTimeout, validCost, validHedge, validCircuit,
          maxRetryAttempts, minBackoffFloor, millisecond, maxBackoffCeiling, second,
          maxBackoffMultiplier]; norm_num)

theorem defaultPolicy_normalize (key : PolicyKey) :
    (DefaultPolicyFor key).Normalize = .ok (DefaultPolicyFor key) :=
  normalize_of_inv _ (defaultPolicy_inv key)

/-- Claim C9: for every key and option list, `NewFromKey` (and `New`,
which delegates to it) returns a successfully normalized policy that is
never the zero policy; and when the options make normalization fail the
result is exactly the normalized default policy for the key, discarding
every user-supplied option. -/
theorem new_never_returns_invalid (key : PolicyKey) (opts : List PolicyOption) :
    (NewFromKey key opts).Normalize = .ok (NewFromKey key opts) ∧
    NewFromKey key opts ≠ zeroEffectivePolicy ∧
    (∀ e, (opts.foldl (fun acc o => o acc) (DefaultPolicyFor key)).Normalize = .error e →
      NewFromKey key opts = DefaultPolicyFor key) ∧
    (∀ s : GoString, New s opts = NewFromKey (ParseKey s) opts) := by
  cases hn : (opts.foldl (fun acc o => o acc) (DefaultPolicyFor key)).Normalize with
  | ok n =>
    have hres : NewFromKey key opts = n := by
      unfold NewFromKey
      rw [hn]
    refine ⟨?_, ?_, ?_, fun s => rfl⟩
    · rw [hres]; exact normalize_idempotent _ _ hn
    · rw [hres]
      intro heq
      have h1 := (normalize_ok_inv _ _ hn).1.1
      rw [heq] at h1
      simp [zeroEffectivePolicy] at h1
    · intro e he; simp at he
  | error e0 =>
    have hres : NewFromKey key opts = DefaultPolicyFor key := by
      unfold NewFromKey
      rw [hn, defaultPolicy_normalize key]
    refine ⟨?_, ?_, fun e he => hres, fun s => rfl⟩
    · rw [hres]; exact defaultPolicy_normalize key
    · rw [hres]
      intro heq
      have h1 := congrArg (fun x => x.Retry.MaxAttempts) heq
      simp [DefaultPolicyFor, zeroEffectivePolicy] at h1

/-- Witness for C9: an option installing an invalid jitter makes the
applied policy fail normalization, and the constructor falls back to the
normalized default for the key. -/
theorem new_never_returns_invalid_witness :
    (NewFromKey ⟨['a'], ['b']⟩ [JitterOption "bogus"]).Normalize =
      .ok (NewFromKey ⟨['a'], ['b']⟩ [JitterOption "bogus"]) ∧
    NewFromKey ⟨['a'], ['b']⟩ [JitterOption "bogus"] = DefaultPolicyFor ⟨['a'], ['b']⟩ :=
  ⟨(new_never_returns_invalid ⟨['a'], ['b']⟩ [JitterOption "bogus"]).1,
   (new_never_returns_invalid ⟨['a'], ['b']⟩ [JitterOption "bogus"]).2.2.1
     ⟨"retry.jitter", "bogus"⟩ (by decide)⟩

theorem map_sum_le (B : Int) (f : List SpawnerTick → Int) (hf : ∀ ts, f ts ≤ B) :
    ∀ gs : List (List SpawnerTick), (gs.map f).sum ≤ (gs.length : Int) * B := by
  intro gs
  induction gs with
  | nil => simp
  | cons g rest ih =>
    simp only [List.map_cons, List.sum_cons, List.length_cons]
    push_cast
    have h1 := hf g
    nlinarith [ih]

/-- Claim C7: a retry group launches at most `1 + MaxHedges` attempts
when hedging is enabled (the spawner stops once `hedgesLaunched` reaches
`maxHedges`) and exactly one when hedging is disabled (the spawner
launches nothing); a call running at most `MaxAttempts` retry groups —
the outer loop of §4.1, modelled from the spec — therefore appends at
most `MaxAttempts × (1 + MaxHedges)` attempt records, one per launched
attempt. -/
theorem group_attempt_bounds (pol : EffectivePolicy) (start : Int) (trig : Trigger)
    (ticks : List SpawnerTick) (groups : List (List SpawnerTick))
    (hmh : 0 ≤ pol.Hedge.MaxHedges)
    (hlen : (groups.length : Int) ≤ pol.Retry.MaxAttempts) :
    (pol.Hedge.Enabled = true →
      groupAttemptsLaunched pol start trig ticks ≤ 1 + pol.Hedge.MaxHedges) ∧
    (pol.Hedge.Enabled = false → groupAttemptsLaunched pol start trig ticks = 1) ∧
    callAttemptRecordCount pol start trig groups ≤
      pol.Retry.MaxAttempts * (1 + pol.Hedge.MaxHedges) := by
  have hgroup : ∀ ts, groupAttemptsLaunched pol start trig ts ≤ 1 + pol.Hedge.MaxHedges := by
    intro ts
    unfold groupAttemptsLaunched groupMaxHedges
    cases hE : pol.Hedge.Enabled with
    | true =>
      have := runSpawner_le true start pol.Hedge.MaxHedges trig ts hmh
      simp only [if_true]
      omega
    | false =>
      simp only [Bool.false_eq_true, if_false]
      rw [runSpawner_disabled]
      omega
  refine ⟨fun hE => ?_, fun hE => ?_, ?_⟩
  · exact hgroup ticks
  · unfold groupAttemptsLaunched groupMaxHedges
    rw [hE]
    simp only [Bool.false_eq_true, if_false]
    rw [runSpawner_disabled]
    omega
  · unfold callAttemptRecordCount
    calc (groups.map (fun ts => groupAttemptsLaunched pol start trig ts)).sum ≤
        (groups.length : Int) * (1 + pol.Hedge.MaxHedges) :=
          map_sum_le _ _ hgroup groups
      _ ≤ pol.Retry.MaxAttempts * (1 + pol.Hedge.MaxHedges) :=
          mul_le_mul_of_nonneg_right hlen (by omega)

/-- Witness for C7 at a concrete policy, trigger and tick schedule. -/
theorem group_attempt_bounds_witness :
    groupAttemptsLaunched hedgingWitnessPolicy 0
      (FixedDelayTrigger.ShouldSpawnHedge ⟨10⟩) [5, 15] ≤
      1 + hedgingWitnessPolicy.Hedge.MaxHedges ∧
    callAttemptRecordCount hedgingWitnessPolicy 0
      (FixedDelayTrigger.ShouldSpawnHedge ⟨10⟩) [[5, 15], [15], [0]] ≤
      hedgingWitnessPolicy.Retry.MaxAttempts * (1 + hedgingWitnessPolicy.Hedge.MaxHedges) :=
  ⟨(group_attempt_bounds hedgingWitnessPolicy 0 (FixedDelayTrigger.ShouldSpawnHedge ⟨10⟩)
      [5, 15] [[5, 15], [15], [0]] (by decide) (by decide)).1 rfl,
   (group_attempt_bounds hedgingWitnessPolicy 0 (FixedDelayTrigger.ShouldSpawnHedge ⟨10⟩)
      [5, 15] [[5, 15], [15], [0]] (by decide) (by decide)).2.2⟩

theorem length_trimLeft_le (s : GoString) : (trimLeft s).length ≤ s.length :=
  (List.dropWhile_sublist _).length_le

theorem length_trimRight_le (s : GoString) : (trimRight s).length ≤ s.length := by
  unfold trimRight
  calc (trimLeft s.reverse).reverse.length = (trimLeft s.reverse).length :=
        List.length_reverse _
    _ ≤ s.reverse.length := length_trimLeft_le _
    _ = s.length := List.length_reverse _

theorem trimLeft_eq_self_of_trimSpace (s : GoString) (h : trimSpace s = s) :
    trimLeft s = s := by
  have hsuffix : trimLeft s <:+ s := List.dropWhile_suffix _
  apply hsuffix.eq_of_length
  have h1 : (trimRight (trimLeft s)).length ≤ (trimLeft s).length := length_trimRight_le _
  have h2 := length_trimLeft_le s
  unfold trimSpace at h
  rw [h] at h1
  omega

theorem trimRight_eq_self_of_trimSpace (s : GoString) (h : trimSpace s = s) :
    trimRight s = s := by
  have hl := trimLeft_eq_self_of_trimSpace s h
  unfold trimSpace at h
  rw [hl] at h
  exact h

theorem trimLeft_head_not_space (a : Char) (l : List Char)
    (h : trimLeft (a :: l) = a :: l) : isGoSpace a = false := by
  by_contra hc
  have hc2 : isGoSpace a = true := by simpa using hc
  unfold trimLeft at h
  rw [List.dropWhile_cons, if_pos hc2] at h
  have := congrArg List.length h
  have hle : (List.dropWhile isGoSpace l).length ≤ l.length :=
    (List.dropWhile_sublist _).length_le
  simp at this
  omega

theorem trimLeft_append (s t : GoString) (hs : trimLeft s = s) (hne : s ≠ []) :
    trimLeft (s ++ t) = s ++ t := by
  cases s with
  | nil => exact absurd rfl hne
  | cons a l =>
    have ha := trimLeft_head_not_space a l hs
    show trimLeft (a :: (l ++ t)) = a :: (l ++ t)
    unfold trimLeft
    rw [List.dropWhile_cons, if_neg (by simp [ha])]

theorem trimRight_append (t s : GoString) (hs : trimRight s = s) (hne : s ≠ []) :
    trimRight (t ++ s) = t ++ s := by
  have hs2 : trimLeft s.reverse = s.reverse := by
    have := congrArg List.reverse hs
    unfold trimRight at this
    simpa using this
  have hner : s.reverse ≠ [] := by simpa using hne
  have hmain := trimLeft_append s.reverse t.reverse hs2 hner
  unfold trimRight
  calc (trimLeft (t ++ s).reverse).reverse =
        (trimLeft (s.reverse ++ t.reverse)).reverse := by rw [List.reverse_append]
    _ = (s.reverse ++ t.reverse).reverse := by rw [hmain]
    _ = t ++ s := by simp

theorem trimSpace_dotted (ns name : GoString) (hns : trimSpace ns = ns)
    (hname : trimSpace name = name) (h1 : ns ≠ []) (h2 : name ≠ []) :
    trimSpace (ns ++ '.' :: name) = ns ++ '.' :: name := by
  unfold trimSpace
  rw [trimLeft_append ns ('.' :: name) (trimLeft_eq_self_of_trimSpace ns hns) h1]
  have hsplit : ns ++ '.' :: name = (ns ++ ['.']) ++ name := by simp
  rw [hsplit,
    trimRight_append (ns ++ ['.']) name (trimRight_eq_self_of_trimSpace name hname) h2]

theorem indexOfDot_first (ns name : GoString) (h : '.' ∉ ns) :
    indexOfDot? (ns ++ '.' :: name) = some ns.length := by
  induction ns with
  | nil => simp [indexOfDot?]
  | cons a l ih =>
    have ha : a ≠ '.' := fun e => h (by simp [e])
    have hl : '.' ∉ l := fun hm => h (List.mem_cons_of_mem _ hm)
    simp [indexOfDot?, ha, ih hl]

theorem indexOfDot_none (s : GoString) (h : '.' ∉ s) : indexOfDot? s = none := by
  induction s with
  | nil => rfl
  | cons a l ih =>
    have ha : a ≠ '.' := fun e => h (by simp [e])
    have hl : '.' ∉ l := fun hm => h (List.mem_cons_of_mem _ hm)
    simp [indexOfDot?, ha, ih hl]

/-- Claim C10: `ParseKey` and `PolicyKey.String` round-trip on canonical
keys — for every key with non-empty namespace and name, neither carrying
surrounding whitespace and the namespace containing no dot,
`ParseKey (k.String) = k`; and every non-empty trimmed dot-free string
parses to a key with empty namespace and the whole string as name (only
the first dot splits namespace from name). -/
theorem parseKey_string_roundtrip :
    (∀ k : PolicyKey, k.Namespace ≠ [] → k.Name ≠ [] →
      trimSpace k.Namespace = k.Namespace → trimSpace k.Name = k.Name →
      '.' ∉ k.Namespace → ParseKey k.String = k) ∧
    (∀ s : GoString, s ≠ [] → trimSpace s = s → '.' ∉ s →
      ParseKey s = ⟨[], s⟩) := by
  constructor
  · rintro ⟨ns, name⟩ h1 h2 hns hname hdot
    have hstr : PolicyKey.String ⟨ns, name⟩ = ns ++ '.' :: name := by
      simp only [PolicyKey.String]
      rw [if_neg (by simpa using h1), if_neg (by simpa using h2)]
    rw [hstr]
    unfold ParseKey
    rw [trimSpace_dotted ns name hns hname h1 h2]
    rw [if_neg (by simp [h1])]
    rw [indexOfDot_first ns name hdot]
    have hdrop : (ns ++ '.' :: name).drop (ns.length + 1) = name := by
      have hsplit : ns ++ '.' :: name = (ns ++ ['.']) ++ name := by simp
      have hlen : ns.length + 1 = (ns ++ ['.']).length := by simp
      rw [hsplit, hlen, List.drop_left]
    show (if trimSpace ((ns ++ '.' :: name).drop (ns.length + 1)) = [] then
        (⟨[], ns ++ '.' :: name⟩ : PolicyKey)
      else ⟨trimSpace ((ns ++ '.' :: name).take ns.length),
        trimSpace ((ns ++ '.' :: name).drop (ns.length + 1))⟩) = ⟨ns, name⟩
    rw [hdrop, hname, List.take_left, hns, if_neg h2]
  · intro s hne htrim hdot
    unfold ParseKey
    rw [htrim, if_neg hne, indexOfDot_none s hdot]

/-- Witness for C10: a namespaced key whose name itself contains a dot
round-trips, and a dot-free string parses to a name-only key. -/
theorem parseKey_string_roundtrip_witness :
    ParseKey (PolicyKey.String ⟨['a'], ['b', '.', 'c']⟩) = ⟨['a'], ['b', '.', 'c']⟩ ∧
    ParseKey ['x'] = ⟨[], ['x']⟩ :=
  ⟨parseKey_string_roundtrip.1 ⟨['a'], ['b', '.', 'c']⟩ (by decide) (by decide)
      (by decide) (by decide) (by decide),
   parseKey_string_roundtrip.2 ['x'] (by decide) (by decide) (by decide)⟩

end Recourse
